import Mathlib

/-! ArduinoTimer: the TimerOne and TimerThree drivers.

A shallow embedding of `TimerOne.cpp` and `TimerThree.cpp`.  The two driver
objects and the memory-mapped registers they touch are records of natural
numbers; every member function is a function from record to record, and the
C arithmetic of the AVR target (`int` 16 bit, `long` 32 bit, registers 8 or
16 bit) is written out with explicit reductions.
-/

/-! ## C arithmetic on the AVR target -/

/-- The value of a 32-bit `long` holding the mathematical result `x`
(two's complement wrap-around). -/
def toLong (x : Int) : Int := (x + 2147483648) % 4294967296 - 2147483648

/-- Conversion to `unsigned long` (32 bit). -/
def toULong (x : Int) : Nat := (x % 4294967296).toNat

/-- Conversion to `unsigned int` (16 bit), also the store into a 16-bit register. -/
def toUInt (x : Int) : Nat := (x % 65536).toNat

/-- The avr-libc bit-value helper, `1 << bit`. -/
def _BV (bit : Nat) : Nat := 1 <<< bit

/-- The statement `reg &= ~mask` on an 8-bit register: the complement is taken at
`int` width and the result is stored back into 8 bits. -/
def clearBits (reg mask : Nat) : Nat := (reg &&& (65535 ^^^ mask)) % 256

/-- The statement `reg |= mask` on an 8-bit register. -/
def setBits (reg mask : Nat) : Nat := (reg ||| mask) % 256

/-! ## Bit positions of the ATmega register map (`avr/io.h`) -/

def CS10 : Nat := 0
def CS11 : Nat := 1
def CS12 : Nat := 2
def WGM13 : Nat := 4
def COM1A1 : Nat := 7
def COM1B1 : Nat := 5
def COM3A1 : Nat := 7
def COM3B1 : Nat := 5
def COM3C1 : Nat := 3
def PORTB1 : Nat := 1
def PORTB2 : Nat := 2
def PORTE3 : Nat := 3
def PORTE4 : Nat := 4
def PORTE5 : Nat := 5
def TOIE1 : Nat := 0
def PSRSYNC : Nat := 0

/-- Position of the global interrupt enable flag `I` in `SREG`. -/
def SREG_I : Nat := 7

/-- The mask `_BV(CS10) | _BV(CS11) | _BV(CS12)` of the three clock-select bits. -/
def CS_MASK : Nat := _BV CS10 ||| _BV CS11 ||| _BV CS12

/-- Modelled from the spec: `TimerOne.h` is not among the sources; the spec gives
the resolution of the 16-bit counter as 65536, the value `TimerThree.h` defines
for `TIMER_THREE_RESOLUTION`. -/
def TIMER_ONE_RESOLUTION : Int := 65536

/-- The macro `TIMER_THREE_RESOLUTION` of `TimerThree.h`. -/
def TIMER_THREE_RESOLUTION : Int := 65536

/-! ## TimerOne -/

/-- The `TimerOne` object together with the registers of Timer1 it drives.
`pwmPeriod` is an `unsigned int`, `clockSelectBits` an `unsigned char`,
`oldSREG` a `char`, `isrCallback` the address of the user's handler. -/
structure TimerOne where
  pwmPeriod : Nat
  clockSelectBits : Nat
  oldSREG : Nat
  isrCallback : Nat
  TCCR1A : Nat
  TCCR1B : Nat
  TCNT1 : Nat
  ICR1 : Nat
  OCR1A : Nat
  OCR1B : Nat
  TIMSK1 : Nat
  GTCCR : Nat
  DDRB : Nat
  SREG : Nat
deriving DecidableEq, Repr

/-- The device after reset: every register and every member is zero. -/
def TimerOne.powerOn : TimerOne :=
  { pwmPeriod := 0, clockSelectBits := 0, oldSREG := 0, isrCallback := 0,
    TCCR1A := 0, TCCR1B := 0, TCNT1 := 0, ICR1 := 0, OCR1A := 0, OCR1B := 0,
    TIMSK1 := 0, GTCCR := 0, DDRB := 0, SREG := 0 }

/-- The instruction `cli()`: clear the global interrupt enable flag. -/
def TimerOne.cli (t : TimerOne) : TimerOne :=
  { t with SREG := clearBits t.SREG (_BV SREG_I) }

/-- The chain of `if ((cycles >>= n) < RESOLUTION)` tests of `setPeriod`:
the final value of `cycles` and the value assigned to `clockSelectBits`. -/
def prescale (resolution cycles : Int) : Int × Nat :=
  if cycles < resolution then (cycles, _BV CS10)
  else
    let cycles := cycles >>> (3 : Nat)
    if cycles < resolution then (cycles, _BV CS11)
    else
      let cycles := cycles >>> (3 : Nat)
      if cycles < resolution then (cycles, _BV CS11 ||| _BV CS10)
      else
        let cycles := cycles >>> (2 : Nat)
        if cycles < resolution then (cycles, _BV CS12)
        else
          let cycles := cycles >>> (2 : Nat)
          if cycles < resolution then (cycles, _BV CS12 ||| _BV CS10)
          else (resolution - 1, _BV CS12 ||| _BV CS10)

/-- `TimerOne::setPeriod(long microseconds)`; `F_CPU` is the clock frequency
macro, a positive `long` constant. -/
def TimerOne.setPeriod (F_CPU : Nat) (microseconds : Int) (t : TimerOne) : TimerOne :=
  let cycles : Int := toLong (((F_CPU / 2000000 : Nat) : Int) * microseconds)
  let r := prescale TIMER_ONE_RESOLUTION cycles
  let t := { t with clockSelectBits := r.2 }
  let t := { t with oldSREG := t.SREG }
  let t := t.cli
  let t := { t with pwmPeriod := toUInt r.1 }
  let t := { t with ICR1 := t.pwmPeriod }
  let t := { t with SREG := t.oldSREG }
  let t := { t with TCCR1B := clearBits t.TCCR1B CS_MASK }
  { t with TCCR1B := setBits t.TCCR1B t.clockSelectBits }

/-- `TimerOne::initialize(long microseconds)`. -/
def TimerOne.initialize (F_CPU : Nat) (microseconds : Int) (t : TimerOne) : TimerOne :=
  let t := { t with TCCR1A := 0 }
  let t := { t with TCCR1B := _BV WGM13 }
  TimerOne.setPeriod F_CPU microseconds t

/-- `TimerOne::setPwmDuty(char pin, int duty)`. -/
def TimerOne.setPwmDuty (pin duty : Int) (t : TimerOne) : TimerOne :=
  let dutyCycle : Nat := t.pwmPeriod
  let dutyCycle : Nat := (dutyCycle * toULong duty) % 4294967296
  let dutyCycle : Nat := dutyCycle >>> 10
  let t := { t with oldSREG := t.SREG }
  let t := t.cli
  let t :=
    if pin = 1 ∨ pin = 9 then { t with OCR1A := dutyCycle % 65536 }
    else if pin = 2 ∨ pin = 10 then { t with OCR1B := dutyCycle % 65536 }
    else t
  { t with SREG := t.oldSREG }

/-- `TimerOne::resume()`. -/
def TimerOne.resume (t : TimerOne) : TimerOne :=
  { t with TCCR1B := setBits t.TCCR1B t.clockSelectBits }

/-- `TimerOne::stop()`. -/
def TimerOne.stop (t : TimerOne) : TimerOne :=
  { t with TCCR1B := clearBits t.TCCR1B CS_MASK }

/-- `TimerOne::pwm(char pin, int duty, long microseconds)`. -/
def TimerOne.pwm (F_CPU : Nat) (pin duty microseconds : Int) (t : TimerOne) : TimerOne :=
  let t := if microseconds > 0 then TimerOne.setPeriod F_CPU microseconds t else t
  let t :=
    if pin = 1 ∨ pin = 9 then
      let t := { t with DDRB := setBits t.DDRB (_BV PORTB1) }
      { t with TCCR1A := setBits t.TCCR1A (_BV COM1A1) }
    else if pin = 2 ∨ pin = 10 then
      let t := { t with DDRB := setBits t.DDRB (_BV PORTB2) }
      { t with TCCR1A := setBits t.TCCR1A (_BV COM1B1) }
    else t
  let t := TimerOne.setPwmDuty pin duty t
  TimerOne.resume t

/-- `TimerOne::disablePwm(char pin)`. -/
def TimerOne.disablePwm (pin : Int) (t : TimerOne) : TimerOne :=
  if pin = 1 ∨ pin = 9 then { t with TCCR1A := clearBits t.TCCR1A (_BV COM1A1) }
  else if pin = 2 ∨ pin = 10 then { t with TCCR1A := clearBits t.TCCR1A (_BV COM1B1) }
  else t

/-- `TimerOne::attachInterrupt(void (*isr)(), long microseconds)`. -/
def TimerOne.attachInterrupt (F_CPU : Nat) (isr : Nat) (microseconds : Int) (t : TimerOne) :
    TimerOne :=
  let t := if microseconds > 0 then TimerOne.setPeriod F_CPU microseconds t else t
  let t := { t with isrCallback := isr }
  let t := { t with TIMSK1 := _BV TOIE1 }
  TimerOne.resume t

/-- `TimerOne::detachInterrupt()`. -/
def TimerOne.detachInterrupt (t : TimerOne) : TimerOne :=
  { t with TIMSK1 := clearBits t.TIMSK1 (_BV TOIE1) }

/-- The register writes of `TimerOne::start()` up to its wait loop. -/
def TimerOne.startWrites (t : TimerOne) : TimerOne :=
  let t := { t with TIMSK1 := clearBits t.TIMSK1 (_BV TOIE1) }
  let t := { t with GTCCR := setBits t.GTCCR (_BV PSRSYNC) }
  let t := { t with oldSREG := t.SREG }
  let t := t.cli
  let t := { t with TCNT1 := 0 }
  { t with SREG := t.oldSREG }

/-- The peripheral between two polls of the live counter: with no clock source
selected (clock-select bits 000) the counter holds its value, otherwise it has
moved to the count `hw` supplied by the hardware. -/
def TimerOne.counterRuns (hw : Nat) (t : TimerOne) : TimerOne :=
  if t.TCCR1B &&& CS_MASK = 0 then t else { t with TCNT1 := hw % 65536 }

/-- The `do ... while (tcnt1 == 0)` loop of `TimerOne::start()`, polling at most
`fuel` times; `hw` gives the count the running hardware shows at each poll. -/
def TimerOne.startWait (hw : Nat → Nat) : Nat → TimerOne → Option TimerOne
  | 0, _ => none
  | fuel + 1, t =>
    let t := TimerOne.counterRuns (hw fuel) t
    let t := { t with oldSREG := t.SREG }
    let t := t.cli
    let tcnt1 := t.TCNT1
    let t := { t with SREG := t.oldSREG }
    if tcnt1 = 0 then TimerOne.startWait hw fuel t else some t

/-- `TimerOne::start()`. -/
def TimerOne.start (hw : Nat → Nat) (fuel : Nat) (t : TimerOne) : Option TimerOne :=
  TimerOne.startWait hw fuel (TimerOne.startWrites t)

/-! ### The elapsed-time reader -/

/-- The scale that the `switch (clockSelectBits)` of `TimerOne::read()` leaves in
`scale`; the variable is initialised to 0 and no case matches other values. -/
def readScale (clockSelectBits : Nat) : Nat :=
  match clockSelectBits with
  | 1 => 0
  | 2 => 3
  | 3 => 6
  | 4 => 8
  | 5 => 10
  | _ => 0

/-- The `do ... while (tcnt1 == tmp)` loop of `TimerOne::read()`, polling at most
`fuel` times: the state it leaves and the sample `tcnt1` that differs from `tmp`. -/
def TimerOne.readWait (hw : Nat → Nat) (tmp : Nat) : Nat → TimerOne → Option (TimerOne × Nat)
  | 0, _ => none
  | fuel + 1, t =>
    let t := TimerOne.counterRuns (hw fuel) t
    let t := { t with oldSREG := t.SREG }
    let t := t.cli
    let tcnt1 := t.TCNT1
    let t := { t with SREG := t.oldSREG }
    if tcnt1 = tmp then TimerOne.readWait hw tmp fuel t else some (t, tcnt1)

/-- The tick count `read()` assigns to `tmp` after the loop,
`(tcnt1 > tmp) ? tmp : (long) (ICR1 - tcnt1) + (long) ICR1`: the difference is
formed in `unsigned int`, the sum in `long`, the result converted to
`unsigned long`. -/
def readTicks (ICR1 tmp tcnt1 : Nat) : Nat :=
  if tcnt1 > tmp then tmp
  else toULong (toLong ((toUInt ((ICR1 : Int) - (tcnt1 : Int)) : Int) + (ICR1 : Int)))

/-- The value `read()` returns, `((tmp * 1000L) / (F_CPU / 1000L)) << scale`, in
`unsigned long` arithmetic. -/
def readMicros (F_CPU ticks scale : Nat) : Nat :=
  ((ticks * 1000 % 4294967296) / (F_CPU / 1000)) <<< scale % 4294967296

/-- `TimerOne::read()`: the state it leaves and the value it returns. -/
def TimerOne.read (F_CPU : Nat) (hw : Nat → Nat) (fuel : Nat) (t : TimerOne) :
    Option (TimerOne × Nat) :=
  let t := { t with oldSREG := t.SREG }
  let t := t.cli
  let tmp : Nat := t.TCNT1
  let t := { t with SREG := t.oldSREG }
  let scale := readScale t.clockSelectBits
  match TimerOne.readWait hw tmp fuel t with
  | none => none
  | some (t, tcnt1) =>
    let tmp := readTicks t.ICR1 tmp tcnt1
    some (t, readMicros F_CPU tmp scale)

/-- The handler that `ISR(TIMER1_OVF_vect)` invokes, `Timer1.isrCallback`. -/
def TIMER1_OVF_vect (t : TimerOne) : Nat := t.isrCallback

/-! ## TimerThree -/

/-- The `TimerThree` object (`TimerThree.h`) together with the registers of
Timer3 it drives. -/
structure TimerThree where
  pwmPeriod : Nat
  clockSelectBits : Nat
  isrCallback : Nat
  TCCR3A : Nat
  TCCR3B : Nat
  TCNT3 : Nat
  ICR3 : Nat
  OCR3A : Nat
  OCR3B : Nat
  OCR3C : Nat
  TIMSK3 : Nat
  DDRE : Nat
  SREG : Nat
deriving DecidableEq, Repr

/-- The device after reset. -/
def TimerThree.powerOn : TimerThree :=
  { pwmPeriod := 0, clockSelectBits := 0, isrCallback := 0,
    TCCR3A := 0, TCCR3B := 0, TCNT3 := 0, ICR3 := 0, OCR3A := 0, OCR3B := 0, OCR3C := 0,
    TIMSK3 := 0, DDRE := 0, SREG := 0 }

/-- The initial value of `cycles` in `TimerThree::setPeriod`,
`(F_CPU * microseconds) / 2000000`: the product of the two `long` operands is
formed first and then divided (C division truncates towards zero).  Where the
product is not representable as a `long` the signed overflow leaves the
expression without a defined value (a compiler is free, for instance, to divide
`F_CPU` first when it is a multiple of 2000000), and there is no result. -/
def TimerThree.cycles (F_CPU : Nat) (microseconds : Int) : Option Int :=
  let product : Int := (F_CPU : Int) * microseconds
  if -2147483648 ≤ product ∧ product < 2147483648 then some (Int.tdiv product 2000000)
  else none

/-- `TimerThree::setPeriod(long microseconds)`; no result where the tick count
has no defined value. -/
def TimerThree.setPeriod (F_CPU : Nat) (microseconds : Int) (t : TimerThree) :
    Option TimerThree :=
  match TimerThree.cycles F_CPU microseconds with
  | none => none
  | some cycles =>
    let r := prescale TIMER_THREE_RESOLUTION cycles
    let t := { t with clockSelectBits := r.2 }
    let t := { t with pwmPeriod := toUInt r.1 }
    let t := { t with ICR3 := t.pwmPeriod }
    let t := { t with TCCR3B := clearBits t.TCCR3B CS_MASK }
    some { t with TCCR3B := setBits t.TCCR3B t.clockSelectBits }

/-- `TimerThree::initialize(long microseconds)`. -/
def TimerThree.initialize (F_CPU : Nat) (microseconds : Int) (t : TimerThree) :
    Option TimerThree :=
  let t := { t with TCCR3A := 0 }
  let t := { t with TCCR3B := _BV WGM13 }
  TimerThree.setPeriod F_CPU microseconds t

/-- `TimerThree::setPwmDuty(char pin, int duty)`. -/
def TimerThree.setPwmDuty (pin duty : Int) (t : TimerThree) : TimerThree :=
  let dutyCycle : Nat := t.pwmPeriod
  let dutyCycle : Nat := (dutyCycle * toULong duty) % 4294967296
  let dutyCycle : Nat := dutyCycle >>> 10
  let t := if pin = 5 then { t with OCR3A := dutyCycle % 65536 } else t
  let t := if pin = 2 then { t with OCR3B := dutyCycle % 65536 } else t
  if pin = 3 then { t with OCR3C := dutyCycle % 65536 } else t

/-- `TimerThree::start()`. -/
def TimerThree.start (t : TimerThree) : TimerThree :=
  { t with TCCR3B := setBits t.TCCR3B t.clockSelectBits }

/-- `TimerThree::stop()`. -/
def TimerThree.stop (t : TimerThree) : TimerThree :=
  { t with TCCR3B := clearBits t.TCCR3B CS_MASK }

/-- `TimerThree::restart()`. -/
def TimerThree.restart (t : TimerThree) : TimerThree :=
  { t with TCNT3 := 0 }

/-- `TimerThree::disablePwm(char pin)`. -/
def TimerThree.disablePwm (pin : Int) (t : TimerThree) : TimerThree :=
  let t := if pin = 5 then { t with TCCR3A := clearBits t.TCCR3A (_BV COM3A1) } else t
  let t := if pin = 2 then { t with TCCR3A := clearBits t.TCCR3A (_BV COM3B1) } else t
  if pin = 3 then { t with TCCR3A := clearBits t.TCCR3A (_BV COM3C1) } else t

/-- `TimerThree::pwm(char pin, int duty, long microseconds)`. -/
def TimerThree.pwm (F_CPU : Nat) (pin duty microseconds : Int) (t : TimerThree) :
    Option TimerThree :=
  match (if microseconds > 0 then TimerThree.setPeriod F_CPU microseconds t else some t) with
  | none => none
  | some t =>
    let t :=
      if pin = 5 then
        let t := { t with DDRE := setBits t.DDRE (_BV PORTE3) }
        { t with TCCR3A := setBits t.TCCR3A (_BV COM3A1) }
      else t
    let t :=
      if pin = 2 then
        let t := { t with DDRE := setBits t.DDRE (_BV PORTE4) }
        { t with TCCR3A := setBits t.TCCR3A (_BV COM3B1) }
      else t
    let t :=
      if pin = 3 then
        let t := { t with DDRE := setBits t.DDRE (_BV PORTE5) }
        { t with TCCR3A := setBits t.TCCR3A (_BV COM3C1) }
      else t
    let t := TimerThree.setPwmDuty pin duty t
    some (TimerThree.start t)

/-- The instruction `sei()`: set the global interrupt enable flag. -/
def TimerThree.sei (t : TimerThree) : TimerThree :=
  { t with SREG := setBits t.SREG (_BV SREG_I) }

/-- `TimerThree::attachInterrupt(void (*isr)(), long microseconds)`. -/
def TimerThree.attachInterrupt (F_CPU : Nat) (isr : Nat) (microseconds : Int)
    (t : TimerThree) : Option TimerThree :=
  match (if microseconds > 0 then TimerThree.setPeriod F_CPU microseconds t else some t) with
  | none => none
  | some t =>
    let t := { t with isrCallback := isr }
    let t := { t with TIMSK3 := _BV TOIE1 }
    let t := t.sei
    some (TimerThree.start t)

/-- `TimerThree::detachInterrupt()`. -/
def TimerThree.detachInterrupt (t : TimerThree) : TimerThree :=
  { t with TIMSK3 := clearBits t.TIMSK3 (_BV TOIE1) }

/-! ## Sequences of calls -/

/-- A call of one of the member functions of `TimerOne` that configure the timer. -/
inductive TimerOne.Call where
  | setPeriod (microseconds : Int)
  | pwm (pin duty microseconds : Int)
  | setPwmDuty (pin duty : Int)
  | disablePwm (pin : Int)
  | attachInterrupt (isr : Nat) (microseconds : Int)
  | detachInterrupt
  | stop
  | resume

/-- The effect of one call. -/
def TimerOne.Call.run (F_CPU : Nat) : TimerOne.Call → TimerOne → TimerOne
  | .setPeriod microseconds, t => TimerOne.setPeriod F_CPU microseconds t
  | .pwm pin duty microseconds, t => TimerOne.pwm F_CPU pin duty microseconds t
  | .setPwmDuty pin duty, t => TimerOne.setPwmDuty pin duty t
  | .disablePwm pin, t => TimerOne.disablePwm pin t
  | .attachInterrupt isr microseconds, t => TimerOne.attachInterrupt F_CPU isr microseconds t
  | .detachInterrupt, t => TimerOne.detachInterrupt t
  | .stop, t => TimerOne.stop t
  | .resume, t => TimerOne.resume t

/-- The effect of a sequence of calls, first call first. -/
def TimerOne.runCalls (F_CPU : Nat) (calls : List TimerOne.Call) (t : TimerOne) : TimerOne :=
  calls.foldl (fun t c => c.run F_CPU t) t

/-- The run-state invariant: `clockSelectBits` is one of the codes 1..5, the
clock-select bits of `TCCR1B` are zero or equal to `clockSelectBits`, the mode bit
WGM13 is set, and `ICR1` equals `pwmPeriod`. -/
def TimerOne.RunState (t : TimerOne) : Prop :=
  t.clockSelectBits ∈ [1, 2, 3, 4, 5] ∧
  (t.TCCR1B &&& CS_MASK = 0 ∨ t.TCCR1B &&& CS_MASK = t.clockSelectBits) ∧
  t.TCCR1B &&& _BV WGM13 = _BV WGM13 ∧
  t.ICR1 = t.pwmPeriod

instance (t : TimerOne) : Decidable (TimerOne.RunState t) := by
  unfold TimerOne.RunState
  infer_instance

/-! ## Statements and critical sections -/

/-- The 16-bit registers of Timer1, whose access takes two bus cycles. -/
inductive Reg16 where
  | ICR1
  | OCR1A
  | OCR1B
  | TCNT1

/-- A store of `v` to a 16-bit register. -/
def Reg16.store (r : Reg16) (v : Nat) (t : TimerOne) : TimerOne :=
  match r with
  | .ICR1 => { t with ICR1 := v }
  | .OCR1A => { t with OCR1A := v }
  | .OCR1B => { t with OCR1B := v }
  | .TCNT1 => { t with TCNT1 := v }

/-- One statement of a member function: a store to a 16-bit register of a value
computed from the current state, or any other statement. -/
inductive Stmt where
  | store16 (r : Reg16) (value : TimerOne → Nat)
  | other (f : TimerOne → TimerOne)

/-- Executing one statement. -/
def Stmt.exec : Stmt → TimerOne → TimerOne
  | .store16 r value, t => r.store (value t) t
  | .other f, t => f t

/-- Executing a list of statements in order. -/
def execAll (stmts : List Stmt) (t : TimerOne) : TimerOne :=
  stmts.foldl (fun t s => s.exec t) t

/-- Every store to a 16-bit register in the list is executed with the global
interrupt flag clear, and every other statement leaves the four 16-bit registers
as they are. -/
def Guarded : List Stmt → TimerOne → Prop
  | [], _ => True
  | s :: rest, t =>
    (match s with
      | .store16 _ _ => t.SREG &&& _BV SREG_I = 0
      | .other f => (f t).ICR1 = t.ICR1 ∧ (f t).OCR1A = t.OCR1A ∧ (f t).OCR1B = t.OCR1B ∧
          (f t).TCNT1 = t.TCNT1) ∧
    Guarded rest (s.exec t)

/-- The statements of `TimerOne::setPeriod`, in source order. -/
def setPeriodStmts (F_CPU : Nat) (microseconds : Int) : List Stmt :=
  let cycles : Int := toLong (((F_CPU / 2000000 : Nat) : Int) * microseconds)
  let r := prescale TIMER_ONE_RESOLUTION cycles
  [ .other (fun t => { t with clockSelectBits := r.2 }),
    .other (fun t => { t with oldSREG := t.SREG }),
    .other TimerOne.cli,
    .other (fun t => { t with pwmPeriod := toUInt r.1 }),
    .store16 .ICR1 (fun t => t.pwmPeriod),
    .other (fun t => { t with SREG := t.oldSREG }),
    .other (fun t => { t with TCCR1B := clearBits t.TCCR1B CS_MASK }),
    .other (fun t => { t with TCCR1B := setBits t.TCCR1B t.clockSelectBits }) ]

/-- The statements of `TimerOne::setPwmDuty`, in source order; `pwmPeriod` is the
value the local `dutyCycle` is initialised from. -/
def setPwmDutyStmts (pin duty : Int) (pwmPeriod : Nat) : List Stmt :=
  let dutyCycle : Nat := pwmPeriod
  let dutyCycle : Nat := (dutyCycle * toULong duty) % 4294967296
  let dutyCycle : Nat := dutyCycle >>> 10
  [ .other (fun t => { t with oldSREG := t.SREG }),
    .other TimerOne.cli ] ++
  (if pin = 1 ∨ pin = 9 then [ .store16 .OCR1A (fun _ => dutyCycle % 65536) ]
   else if pin = 2 ∨ pin = 10 then [ .store16 .OCR1B (fun _ => dutyCycle % 65536) ]
   else []) ++
  [ .other (fun t => { t with SREG := t.oldSREG }) ]

/-- The statements of `TimerOne::pwm` from the state `t`, in source order, with the
statements of the two member functions it calls spliced in. -/
def pwmStmts (F_CPU : Nat) (pin duty microseconds : Int) (t : TimerOne) : List Stmt :=
  let first : List Stmt :=
    (if microseconds > 0 then setPeriodStmts F_CPU microseconds else []) ++
    (if pin = 1 ∨ pin = 9 then
      [ .other (fun t => { t with DDRB := setBits t.DDRB (_BV PORTB1) }),
        .other (fun t => { t with TCCR1A := setBits t.TCCR1A (_BV COM1A1) }) ]
     else if pin = 2 ∨ pin = 10 then
      [ .other (fun t => { t with DDRB := setBits t.DDRB (_BV PORTB2) }),
        .other (fun t => { t with TCCR1A := setBits t.TCCR1A (_BV COM1B1) }) ]
     else [])
  first ++ setPwmDutyStmts pin duty (execAll first t).pwmPeriod ++ [ .other TimerOne.resume ]

/-- The statements of `TimerOne::start` up to its wait loop, in source order. -/
def startStmts : List Stmt :=
  [ .other (fun t => { t with TIMSK1 := clearBits t.TIMSK1 (_BV TOIE1) }),
    .other (fun t => { t with GTCCR := setBits t.GTCCR (_BV PSRSYNC) }),
    .other (fun t => { t with oldSREG := t.SREG }),
    .other TimerOne.cli,
    .store16 .TCNT1 (fun _ => 0),
    .other (fun t => { t with SREG := t.oldSREG }) ]

/-- The guarded read of the live counter with which `read()` begins and which the
loops of `start()` and `read()` repeat:
`oldSREG = SREG; cli(); x = TCNT1; SREG = oldSREG;`. -/
def TimerOne.sampleTCNT1 (t : TimerOne) : TimerOne × Nat :=
  let t := { t with oldSREG := t.SREG }
  let t := t.cli
  let x := t.TCNT1
  let t := { t with SREG := t.oldSREG }
  (t, x)

/-- The run-state invariant together with the width of the register `TCCR1B`. -/
def RunState8 (t : TimerOne) : Prop := TimerOne.RunState t ∧ t.TCCR1B < 256

/-! ## The prescale divisors, as the specification names them -/

/-- The divisor that a value of `clockSelectBits` stands for: 1, 2, 3, 4, 5 select
DIV1, DIV8, DIV64, DIV256, DIV1024. -/
def divisorOf : Nat → Int
  | 1 => 1
  | 2 => 8
  | 3 => 64
  | 4 => 256
  | 5 => 1024
  | _ => 0

/-- The ordered set of prescale divisors of the specification. -/
def divisors : List Int := [1, 8, 64, 256, 1024]

/-! ## Arithmetic lemmas -/

theorem toLong_of_range (x : Int) (h0 : -2147483648 ≤ x) (h1 : x < 2147483648) :
    toLong x = x := by
  unfold toLong
  omega

theorem toUInt_of_range (x : Int) (h0 : 0 ≤ x) (h1 : x < 65536) : (toUInt x : Int) = x := by
  unfold toUInt
  omega

theorem toULong_natCast (n : Nat) (h : n < 4294967296) : toULong (n : Int) = n := by
  unfold toULong
  omega

/-! ### Registers of eight bits -/

theorem or_mod_256 (a b : Nat) : (a ||| b) % 256 = (a % 256 ||| b) % 256 := by
  apply Nat.eq_of_testBit_eq
  intro i
  have h : (256 : Nat) = 2 ^ 8 := by norm_num
  simp only [h, Nat.testBit_mod_two_pow, Nat.testBit_or]
  cases decide (i < 8) <;> simp

theorem and_mod_256 (a b : Nat) : (a &&& b) % 256 = (a % 256 &&& b) % 256 := by
  apply Nat.eq_of_testBit_eq
  intro i
  have h : (256 : Nat) = 2 ^ 8 := by norm_num
  simp only [h, Nat.testBit_mod_two_pow, Nat.testBit_and]
  cases decide (i < 8) <;> simp

/-- Only the low eight bits of the old register value matter to `reg |= mask`. -/
theorem setBits_mod (r m : Nat) : setBits r m = setBits (r % 256) m := or_mod_256 r m

/-- Only the low eight bits of the old register value matter to `reg &= ~mask`. -/
theorem clearBits_mod (r m : Nat) : clearBits r m = clearBits (r % 256) m :=
  and_mod_256 r _

theorem CS_MASK_eq : CS_MASK = 7 := by decide

set_option maxRecDepth 100000 in
theorem cs_bits_byte : ∀ x, x < 256 → ∀ c, c < 8 →
    clearBits x 7 &&& 7 = 0 ∧ setBits (clearBits x 7) c &&& 7 = c ∧
    setBits (setBits (clearBits x 7) c) c = setBits (clearBits x 7) c ∧
    (x &&& 7 = c → setBits (clearBits x 7) c = x) := by
  decide

/-- Clearing the clock-select bits and setting a code below 8, as `setPeriod`
does, leaves exactly that code in the clock-select bits; a second `|=` of the same
code changes nothing. -/
theorem cs_bits (r c : Nat) (hc : c < 8) :
    clearBits r CS_MASK &&& CS_MASK = 0 ∧
    setBits (clearBits r CS_MASK) c &&& CS_MASK = c ∧
    setBits (setBits (clearBits r CS_MASK) c) c = setBits (clearBits r CS_MASK) c := by
  rw [CS_MASK_eq, clearBits_mod r 7]
  have h := cs_bits_byte (r % 256) (Nat.mod_lt _ (by norm_num)) c hc
  exact ⟨h.1, h.2.1, h.2.2.1⟩

set_option maxRecDepth 100000 in
theorem enable_bits_byte : ∀ x, x < 256 →
    setBits x 128 &&& 128 = 128 ∧ setBits x 32 &&& 32 = 32 ∧
    setBits x 2 &&& 2 = 2 ∧ setBits x 4 &&& 4 = 4 := by
  decide

/-- After `reg |= _BV(bit)` the bit reads as set, for the output-enable and
data-direction bits of the two channels. -/
theorem enable_bits (r : Nat) :
    setBits r (_BV COM1A1) &&& _BV COM1A1 = _BV COM1A1 ∧
    setBits r (_BV COM1B1) &&& _BV COM1B1 = _BV COM1B1 ∧
    setBits r (_BV PORTB1) &&& _BV PORTB1 = _BV PORTB1 ∧
    setBits r (_BV PORTB2) &&& _BV PORTB2 = _BV PORTB2 := by
  have e1 : _BV COM1A1 = 128 := by decide
  have e2 : _BV COM1B1 = 32 := by decide
  have e3 : _BV PORTB1 = 2 := by decide
  have e4 : _BV PORTB2 = 4 := by decide
  rw [e1, e2, e3, e4, setBits_mod r 128, setBits_mod r 32, setBits_mod r 2, setBits_mod r 4]
  exact enable_bits_byte (r % 256) (Nat.mod_lt _ (by norm_num))

/-- The result of the test chain on a tick count that fits under DIV1024. -/
theorem prescale_fits (c : Int) (h0 : 0 ≤ c) (h1 : c < 65536 * 1024) :
    (0 ≤ c ∧ c < 65536 ∧ prescale 65536 c = (c, 1)) ∨
    (65536 ≤ c ∧ c / 8 < 65536 ∧ prescale 65536 c = (c / 8, 2)) ∨
    (65536 ≤ c / 8 ∧ c / 64 < 65536 ∧ prescale 65536 c = (c / 64, 3)) ∨
    (65536 ≤ c / 64 ∧ c / 256 < 65536 ∧ prescale 65536 c = (c / 256, 4)) ∨
    (65536 ≤ c / 256 ∧ c / 1024 < 65536 ∧ prescale 65536 c = (c / 1024, 5)) := by
  have e3 : ∀ x : Int, x >>> (3 : Nat) = x / 8 := fun x => by
    rw [Int.shiftRight_eq_div_pow]; norm_num
  have e2 : ∀ x : Int, x >>> (2 : Nat) = x / 4 := fun x => by
    rw [Int.shiftRight_eq_div_pow]; norm_num
  have v1 : _BV CS10 = 1 := by decide
  have v2 : _BV CS11 = 2 := by decide
  have v3 : _BV CS11 ||| _BV CS10 = 3 := by decide
  have v4 : _BV CS12 = 4 := by decide
  have v5 : _BV CS12 ||| _BV CS10 = 5 := by decide
  have d64 : c / 8 / 8 = c / 64 := by omega
  have d256 : c / 64 / 4 = c / 256 := by omega
  have d1024 : c / 256 / 4 = c / 1024 := by omega
  unfold prescale
  simp only [e3, e2, v1, v2, v3, v4, v5, d64, d256, d1024]
  split_ifs <;> simp <;> omega

/-- The test chain always yields one of the five clock-select codes. -/
theorem prescale_code (R c : Int) : (prescale R c).2 ∈ [1, 2, 3, 4, 5] := by
  unfold prescale
  simp only []
  split_ifs <;> simp [_BV, CS10, CS11, CS12]

/-! ## Period and prescaler resolution -/

theorem setPeriod_clockSelectBits (F_CPU : Nat) (p : Int) (t : TimerOne) :
    (TimerOne.setPeriod F_CPU p t).clockSelectBits =
      (prescale 65536 (toLong (((F_CPU / 2000000 : Nat) : Int) * p))).2 := rfl

theorem setPeriod_pwmPeriod (F_CPU : Nat) (p : Int) (t : TimerOne) :
    (TimerOne.setPeriod F_CPU p t).pwmPeriod =
      toUInt (prescale 65536 (toLong (((F_CPU / 2000000 : Nat) : Int) * p))).1 := rfl

theorem setPeriod_ICR1 (F_CPU : Nat) (p : Int) (t : TimerOne) :
    (TimerOne.setPeriod F_CPU p t).ICR1 = (TimerOne.setPeriod F_CPU p t).pwmPeriod := rfl

theorem setPeriod_TCCR1B (F_CPU : Nat) (p : Int) (t : TimerOne) :
    (TimerOne.setPeriod F_CPU p t).TCCR1B =
      setBits (clearBits t.TCCR1B CS_MASK) (TimerOne.setPeriod F_CPU p t).clockSelectBits := rfl

/-- C1: for every period `p > 0` whose tick count `cycles = (F_CPU / 2000000) * p`
is below `65536 * 1024`, `TimerOne::setPeriod(p)` leaves in `clockSelectBits` one
of the codes 1..5, the divisor `d` it stands for is the least of 1, 8, 64, 256,
1024 with `cycles / d < 65536`, and both `pwmPeriod` and `ICR1` hold `cycles / d`. -/
theorem setPeriod_least_divisor (F_CPU : Nat) (p : Int) (t : TimerOne) (hp : 0 < p)
    (hfit : ((F_CPU / 2000000 : Nat) : Int) * p < 65536 * 1024) :
    (TimerOne.setPeriod F_CPU p t).clockSelectBits ∈ [1, 2, 3, 4, 5] ∧
    divisorOf (TimerOne.setPeriod F_CPU p t).clockSelectBits ∈ divisors ∧
    ((F_CPU / 2000000 : Nat) : Int) * p
      / divisorOf (TimerOne.setPeriod F_CPU p t).clockSelectBits < 65536 ∧
    (∀ e ∈ divisors, ((F_CPU / 2000000 : Nat) : Int) * p / e < 65536 →
      divisorOf (TimerOne.setPeriod F_CPU p t).clockSelectBits ≤ e) ∧
    ((TimerOne.setPeriod F_CPU p t).pwmPeriod : Int) = ((F_CPU / 2000000 : Nat) : Int) * p
      / divisorOf (TimerOne.setPeriod F_CPU p t).clockSelectBits ∧
    ((TimerOne.setPeriod F_CPU p t).ICR1 : Int) = ((F_CPU / 2000000 : Nat) : Int) * p
      / divisorOf (TimerOne.setPeriod F_CPU p t).clockSelectBits := by
  have hk : (0 : Int) ≤ ((F_CPU / 2000000 : Nat) : Int) := Int.natCast_nonneg _
  have h0 : 0 ≤ ((F_CPU / 2000000 : Nat) : Int) * p := Int.mul_nonneg hk (le_of_lt hp)
  rw [setPeriod_ICR1, setPeriod_pwmPeriod, setPeriod_clockSelectBits]
  generalize ((F_CPU / 2000000 : Nat) : Int) * p = c at hfit h0 ⊢
  rw [toLong_of_range c (by omega) (by omega)]
  have hu : ∀ x : Int, 0 ≤ x → x < 65536 → (toUInt x : Int) = x := toUInt_of_range
  rcases prescale_fits c h0 hfit with h | h | h | h | h
  all_goals
    obtain ⟨h1, h2, h3⟩ := h
    simp only [h3, divisorOf, divisors, List.mem_cons, List.mem_singleton, forall_eq_or_imp,
      forall_eq, List.not_mem_nil, or_false]
    refine ⟨by decide, by decide, by omega, ?_, ?_, ?_⟩
    · omega
    · rw [hu _ (by omega) (by omega)] <;> try omega
    · rw [hu _ (by omega) (by omega)] <;> try omega

/-- A concrete instance of C1: 1000 microseconds at 16 MHz. -/
theorem setPeriod_least_divisor_witness :
    (TimerOne.setPeriod 16000000 1000 TimerOne.powerOn).clockSelectBits ∈ [1, 2, 3, 4, 5] ∧
    divisorOf (TimerOne.setPeriod 16000000 1000 TimerOne.powerOn).clockSelectBits ∈ divisors ∧
    ((16000000 / 2000000 : Nat) : Int) * 1000
      / divisorOf (TimerOne.setPeriod 16000000 1000 TimerOne.powerOn).clockSelectBits < 65536 ∧
    (∀ e ∈ divisors, ((16000000 / 2000000 : Nat) : Int) * 1000 / e < 65536 →
      divisorOf (TimerOne.setPeriod 16000000 1000 TimerOne.powerOn).clockSelectBits ≤ e) ∧
    ((TimerOne.setPeriod 16000000 1000 TimerOne.powerOn).pwmPeriod : Int) =
      ((16000000 / 2000000 : Nat) : Int) * 1000
      / divisorOf (TimerOne.setPeriod 16000000 1000 TimerOne.powerOn).clockSelectBits ∧
    ((TimerOne.setPeriod 16000000 1000 TimerOne.powerOn).ICR1 : Int) =
      ((16000000 / 2000000 : Nat) : Int) * 1000
      / divisorOf (TimerOne.setPeriod 16000000 1000 TimerOne.powerOn).clockSelectBits :=
  setPeriod_least_divisor 16000000 1000 TimerOne.powerOn (by decide) (by decide)

/-- The result of the test chain on a tick count too large for DIV1024. -/
theorem prescale_saturates (c : Int) (h : 65536 * 1024 ≤ c) :
    prescale 65536 c = (65535, 5) := by
  have e3 : ∀ x : Int, x >>> (3 : Nat) = x / 8 := fun x => by
    rw [Int.shiftRight_eq_div_pow]; norm_num
  have e2 : ∀ x : Int, x >>> (2 : Nat) = x / 4 := fun x => by
    rw [Int.shiftRight_eq_div_pow]; norm_num
  unfold prescale
  simp only [e3, e2]
  rw [if_neg (by omega), if_neg (by omega), if_neg (by omega), if_neg (by omega),
    if_neg (by omega)]
  decide

/-- Where the product does not leave the `long` range: a tick count of at least
`65536 * 1024` resolves to DIV1024 with the top value 65535. -/
theorem setPeriod_saturates_in_range (F_CPU : Nat) (p : Int) (t : TimerOne)
    (hbig : 65536 * 1024 ≤ ((F_CPU / 2000000 : Nat) : Int) * p)
    (hlong : ((F_CPU / 2000000 : Nat) : Int) * p < 2147483648) :
    (TimerOne.setPeriod F_CPU p t).clockSelectBits = 5 ∧
    (TimerOne.setPeriod F_CPU p t).pwmPeriod = 65535 := by
  rw [setPeriod_pwmPeriod, setPeriod_clockSelectBits]
  generalize ((F_CPU / 2000000 : Nat) : Int) * p = c at hbig hlong ⊢
  rw [toLong_of_range c (by omega) (by omega), prescale_saturates c hbig]
  decide

/-- C2: at 16 MHz the request of 268435456 microseconds asks for 2147483648 ticks,
far above `65536 * 1024`; the `long` product wraps to a negative number, the first
test of the chain succeeds and `TimerOne::setPeriod` leaves prescaler code 1 with
a top value of 0 instead of DIV1024 with 65535. -/
theorem setPeriod_wraps_instead_of_saturating (t : TimerOne) :
    (65536 * 1024 : Int) ≤ ((16000000 / 2000000 : Nat) : Int) * 268435456 ∧
    toLong (((16000000 / 2000000 : Nat) : Int) * 268435456) = -2147483648 ∧
    (TimerOne.setPeriod 16000000 268435456 t).clockSelectBits = 1 ∧
    (TimerOne.setPeriod 16000000 268435456 t).pwmPeriod = 0 ∧
    (TimerOne.setPeriod 16000000 268435456 t).ICR1 = 0 := by
  rw [setPeriod_ICR1, setPeriod_pwmPeriod, setPeriod_clockSelectBits]
  decide

/-- C3 as stated fails: at 16 MHz `initialize(1000000)` does not select DIV8
(clock-select code 2). -/
theorem initialize_default_not_DIV8 :
    ¬ (( TimerOne.initialize 16000000 1000000 TimerOne.powerOn).clockSelectBits = 2) := by
  decide

/-- C3, amended: at 16 MHz `initialize(1000000)` resolves to DIV256 (clock-select
code 4) with a top value of 31250, whatever the state it starts from; the
clock-select bits of `TCCR1B` hold that code and the mode bit WGM13 is set. -/
theorem initialize_default_DIV256 (t : TimerOne) :
    ( TimerOne.initialize 16000000 1000000 t).clockSelectBits = 4 ∧
    divisorOf ( TimerOne.initialize 16000000 1000000 t).clockSelectBits = 256 ∧
    ( TimerOne.initialize 16000000 1000000 t).pwmPeriod = 31250 ∧
    ( TimerOne.initialize 16000000 1000000 t).ICR1 = 31250 ∧
    ( TimerOne.initialize 16000000 1000000 t).TCCR1B = _BV WGM13 ||| 4 := by
  have h1 : ( TimerOne.initialize 16000000 1000000 t).clockSelectBits =
      (prescale 65536 (toLong (((16000000 / 2000000 : Nat) : Int) * 1000000))).2 := rfl
  have h2 : ( TimerOne.initialize 16000000 1000000 t).pwmPeriod =
      toUInt (prescale 65536 (toLong (((16000000 / 2000000 : Nat) : Int) * 1000000))).1 := rfl
  have h3 : ( TimerOne.initialize 16000000 1000000 t).ICR1 =
      ( TimerOne.initialize 16000000 1000000 t).pwmPeriod := rfl
  have h4 : ( TimerOne.initialize 16000000 1000000 t).TCCR1B =
      setBits (clearBits (_BV WGM13) CS_MASK)
        ( TimerOne.initialize 16000000 1000000 t).clockSelectBits := rfl
  rw [h4, h3, h2, h1]
  decide

/-- The arithmetic of `setPwmDuty`: for a 16-bit top value and a 10-bit duty the
`unsigned long` product does not wrap and the shifted result fits the 16-bit
compare register. -/
theorem duty_arith (T d : Nat) (hT : T < 65536) (hd : d ≤ 1023) :
    ((T * toULong (d : Int)) % 4294967296) >>> 10 % 65536 = T * d / 1024 := by
  rw [toULong_natCast d (by omega)]
  have hlt : T * d < 65536 * 1024 :=
    Nat.mul_lt_mul'' hT (by omega)
  rw [Nat.shiftRight_eq_div_pow]
  generalize T * d = x at hlt ⊢
  omega

/-- The compare values `TimerOne::setPwmDuty` writes for its four pins. -/
theorem setPwmDuty_writes (t : TimerOne) (duty : Nat) (ht : t.pwmPeriod < 65536)
    (hd : duty ≤ 1023) :
    (TimerOne.setPwmDuty 1 duty t).OCR1A = t.pwmPeriod * duty / 1024 ∧
    (TimerOne.setPwmDuty 9 duty t).OCR1A = t.pwmPeriod * duty / 1024 ∧
    (TimerOne.setPwmDuty 2 duty t).OCR1B = t.pwmPeriod * duty / 1024 ∧
    (TimerOne.setPwmDuty 10 duty t).OCR1B = t.pwmPeriod * duty / 1024 := by
  have a := duty_arith t.pwmPeriod duty ht hd
  refine ⟨?_, ?_, ?_, ?_⟩ <;> simp [TimerOne.setPwmDuty, TimerOne.cli, a]

/-- C5: for every 16-bit `pwmPeriod`, every duty in 0..1023 and every mapped
pin (1, 9, 2, 10 on TimerOne; 5, 2, 3 on TimerThree), `setPwmDuty` stores exactly
`pwmPeriod * duty / 1024` in the compare register of that pin. -/
theorem setPwmDuty_exact (t : TimerOne) (u : TimerThree) (duty : Nat)
    (ht : t.pwmPeriod < 65536) (hu : u.pwmPeriod < 65536) (hd : duty ≤ 1023) :
    (TimerOne.setPwmDuty 1 duty t).OCR1A = t.pwmPeriod * duty / 1024 ∧
    (TimerOne.setPwmDuty 9 duty t).OCR1A = t.pwmPeriod * duty / 1024 ∧
    (TimerOne.setPwmDuty 2 duty t).OCR1B = t.pwmPeriod * duty / 1024 ∧
    (TimerOne.setPwmDuty 10 duty t).OCR1B = t.pwmPeriod * duty / 1024 ∧
    (TimerThree.setPwmDuty 5 duty u).OCR3A = u.pwmPeriod * duty / 1024 ∧
    (TimerThree.setPwmDuty 2 duty u).OCR3B = u.pwmPeriod * duty / 1024 ∧
    (TimerThree.setPwmDuty 3 duty u).OCR3C = u.pwmPeriod * duty / 1024 := by
  obtain ⟨a1, a2, a3, a4⟩ := setPwmDuty_writes t duty ht hd
  have b := duty_arith u.pwmPeriod duty hu hd
  refine ⟨a1, a2, a3, a4, ?_, ?_, ?_⟩ <;> simp [TimerThree.setPwmDuty, b]

/-- A concrete instance of C5: top value 8000, duty 512. -/
theorem setPwmDuty_exact_witness :
    (TimerOne.setPwmDuty 1 (512 : Nat) { TimerOne.powerOn with pwmPeriod := 8000 }).OCR1A
      = 8000 * 512 / 1024 ∧
    (TimerThree.setPwmDuty 3 (512 : Nat) { TimerThree.powerOn with pwmPeriod := 8000 }).OCR3C
      = 8000 * 512 / 1024 :=
  have h := setPwmDuty_exact { TimerOne.powerOn with pwmPeriod := 8000 }
    { TimerThree.powerOn with pwmPeriod := 8000 } 512 (by decide) (by decide) (by decide)
  ⟨h.1, h.2.2.2.2.2.2⟩

/-- C6: for a fixed 16-bit `pwmPeriod` and duties `d1 < d2` in 0..1023 the compare
value `setPwmDuty` writes for `d1` is at most the one it writes for `d2`, on
either channel of TimerOne. -/
theorem setPwmDuty_monotone (t : TimerOne) (d1 d2 : Nat) (ht : t.pwmPeriod < 65536)
    (h12 : d1 < d2) (h2 : d2 ≤ 1023) :
    (TimerOne.setPwmDuty 1 d1 t).OCR1A ≤ (TimerOne.setPwmDuty 1 d2 t).OCR1A ∧
    (TimerOne.setPwmDuty 9 d1 t).OCR1A ≤ (TimerOne.setPwmDuty 9 d2 t).OCR1A ∧
    (TimerOne.setPwmDuty 2 d1 t).OCR1B ≤ (TimerOne.setPwmDuty 2 d2 t).OCR1B ∧
    (TimerOne.setPwmDuty 10 d1 t).OCR1B ≤ (TimerOne.setPwmDuty 10 d2 t).OCR1B := by
  obtain ⟨a1, a2, a3, a4⟩ := setPwmDuty_writes t d1 ht (by omega)
  obtain ⟨b1, b2, b3, b4⟩ := setPwmDuty_writes t d2 ht h2
  have hm : t.pwmPeriod * d1 / 1024 ≤ t.pwmPeriod * d2 / 1024 :=
    Nat.div_le_div_right (Nat.mul_le_mul_left _ (le_of_lt h12))
  rw [a1, a2, a3, a4, b1, b2, b3, b4]
  exact ⟨hm, hm, hm, hm⟩

/-- A concrete instance of C6: top value 8000, duties 100 and 101. -/
theorem setPwmDuty_monotone_witness :
    (TimerOne.setPwmDuty 9 (100 : Nat) { TimerOne.powerOn with pwmPeriod := 8000 }).OCR1A
      ≤ (TimerOne.setPwmDuty 9 (101 : Nat) { TimerOne.powerOn with pwmPeriod := 8000 }).OCR1A :=
  (setPwmDuty_monotone { TimerOne.powerOn with pwmPeriod := 8000 } 100 101
    (by decide) (by decide) (by decide)).2.1

/-- After `setPeriod` the stored top value is a 16-bit number. -/
theorem setPeriod_pwmPeriod_lt (F_CPU : Nat) (p : Int) (t : TimerOne) :
    (TimerOne.setPeriod F_CPU p t).pwmPeriod < 65536 := by
  rw [setPeriod_pwmPeriod]
  unfold toUInt
  omega

/-- A tick count that is positive and inside the `long` range resolves to a
nonzero top value. -/
theorem setPeriod_pwmPeriod_pos (F_CPU : Nat) (p : Int) (t : TimerOne)
    (hpos : 0 < ((F_CPU / 2000000 : Nat) : Int) * p)
    (hlong : ((F_CPU / 2000000 : Nat) : Int) * p < 2147483648) :
    0 < (TimerOne.setPeriod F_CPU p t).pwmPeriod := by
  rw [setPeriod_pwmPeriod]
  generalize ((F_CPU / 2000000 : Nat) : Int) * p = c at hpos hlong ⊢
  rw [toLong_of_range c (by omega) (by omega)]
  unfold toUInt
  by_cases hc : c < 65536 * 1024
  · rcases prescale_fits c (by omega) hc with h | h | h | h | h
    all_goals
      obtain ⟨h1, h2, h3⟩ := h
      rw [h3]
      simp only []
      omega
  · rw [prescale_saturates c (by omega)]
    decide

/-- Where `F_CPU` is at least 2000000 and the tick count `(F_CPU / 2000000) * p`
of a period `p > 0` stays inside the `long` range, a duty of 0 writes 0 and a duty
of 1023 writes a value strictly below the resolved top value, on every mapped
pin. -/
theorem duty_endpoints_in_range (F_CPU : Nat) (p : Int) (t : TimerOne) (hp : 0 < p)
    (hF : 2000000 ≤ F_CPU) (hlong : ((F_CPU / 2000000 : Nat) : Int) * p < 2147483648) :
    ((TimerOne.setPwmDuty 1 0 (TimerOne.setPeriod F_CPU p t)).OCR1A = 0 ∧
     (TimerOne.setPwmDuty 9 0 (TimerOne.setPeriod F_CPU p t)).OCR1A = 0 ∧
     (TimerOne.setPwmDuty 2 0 (TimerOne.setPeriod F_CPU p t)).OCR1B = 0 ∧
     (TimerOne.setPwmDuty 10 0 (TimerOne.setPeriod F_CPU p t)).OCR1B = 0) ∧
    ((TimerOne.setPwmDuty 1 1023 (TimerOne.setPeriod F_CPU p t)).OCR1A
        < (TimerOne.setPeriod F_CPU p t).pwmPeriod ∧
      (TimerOne.setPwmDuty 9 1023 (TimerOne.setPeriod F_CPU p t)).OCR1A
        < (TimerOne.setPeriod F_CPU p t).pwmPeriod ∧
      (TimerOne.setPwmDuty 2 1023 (TimerOne.setPeriod F_CPU p t)).OCR1B
        < (TimerOne.setPeriod F_CPU p t).pwmPeriod ∧
      (TimerOne.setPwmDuty 10 1023 (TimerOne.setPeriod F_CPU p t)).OCR1B
        < (TimerOne.setPeriod F_CPU p t).pwmPeriod) := by
  have hlt := setPeriod_pwmPeriod_lt F_CPU p t
  have hk : (1 : Int) ≤ ((F_CPU / 2000000 : Nat) : Int) := by
    have : 1 ≤ F_CPU / 2000000 := by omega
    exact_mod_cast this
  have hpos := setPeriod_pwmPeriod_pos F_CPU p t (Int.mul_pos (by omega) hp) hlong
  have z := setPwmDuty_writes (TimerOne.setPeriod F_CPU p t) 0 hlt (by decide)
  have f := setPwmDuty_writes (TimerOne.setPeriod F_CPU p t) 1023 hlt (by decide)
  simp only [Nat.cast_zero, Nat.cast_ofNat, Nat.mul_zero, Nat.zero_div] at z f
  refine ⟨z, ?_⟩
  obtain ⟨f1, f2, f3, f4⟩ := f
  rw [f1, f2, f3, f4]
  omega

/-- C7: at 16 MHz the period 536870912 microseconds asks for `8 * 536870912 = 2^32`
ticks, far above `65536 * 1024`; the `long` product wraps to 0, `setPeriod`
resolves a top value of 0 with prescaler code 1 instead of saturating at 65535
with DIV1024, and `setPwmDuty` with a duty of 1023 then writes 0 to either
compare register, which is not below the top value. -/
theorem duty_1023_at_wrapped_period (t : TimerOne) :
    (65536 * 1024 : Int) ≤ ((16000000 / 2000000 : Nat) : Int) * 536870912 ∧
    toLong (((16000000 / 2000000 : Nat) : Int) * 536870912) = 0 ∧
    (TimerOne.setPeriod 16000000 536870912 t).clockSelectBits = 1 ∧
    (TimerOne.setPeriod 16000000 536870912 t).pwmPeriod = 0 ∧
    (TimerOne.setPwmDuty 9 1023 (TimerOne.setPeriod 16000000 536870912 t)).OCR1A = 0 ∧
    (TimerOne.setPwmDuty 10 1023 (TimerOne.setPeriod 16000000 536870912 t)).OCR1B = 0 ∧
    ¬ ((TimerOne.setPwmDuty 9 1023 (TimerOne.setPeriod 16000000 536870912 t)).OCR1A
        < (TimerOne.setPeriod 16000000 536870912 t).pwmPeriod) ∧
    ¬ ((TimerOne.setPwmDuty 10 1023 (TimerOne.setPeriod 16000000 536870912 t)).OCR1B
        < (TimerOne.setPeriod 16000000 536870912 t).pwmPeriod) := by
  have hP : (TimerOne.setPeriod 16000000 536870912 t).pwmPeriod = 0 := by
    rw [setPeriod_pwmPeriod]
    decide
  have hC : (TimerOne.setPeriod 16000000 536870912 t).clockSelectBits = 1 := by
    rw [setPeriod_clockSelectBits]
    decide
  obtain ⟨-, f2, -, f4⟩ := setPwmDuty_writes (TimerOne.setPeriod 16000000 536870912 t) 1023
    (by rw [hP]; decide) (by decide)
  simp only [Nat.cast_ofNat, hP, Nat.zero_mul, Nat.zero_div] at f2 f4
  refine ⟨by decide, by decide, hC, hP, f2, f4, ?_, ?_⟩
  · rw [f2, hP]
    decide
  · rw [f4, hP]
    decide

/-! ## PWM output -/

theorem prescale_code_lt (R c : Int) : (prescale R c).2 < 8 := by
  have h := prescale_code R c
  simp only [List.mem_cons, List.mem_singleton, List.not_mem_nil, or_false] at h
  omega

/-- C8: for `p > 0` and a duty in 0..1023, `TimerOne::pwm(pin, duty, p)` on a
mapped pin ends with the output-enable bit of the channel set in `TCCR1A`, its
data-direction bit set in `DDRB`, and its compare register equal to
`T * duty / 1024` for the top value `T` that `setPeriod(p)` resolves; the
clock-select bits of `TCCR1B` and `clockSelectBits` hold the prescaler code that
`setPeriod(p)` resolves, `pwmPeriod` holds `T`, and `TCNT1` is left as it was. -/
theorem pwm_scales_against_new_top (F_CPU : Nat) (pin : Int) (duty : Nat) (p : Int)
    (t : TimerOne) (hp : 0 < p) (hd : duty ≤ 1023) :
    (pin = 1 ∨ pin = 9 →
      (TimerOne.pwm F_CPU pin duty p t).TCCR1A &&& _BV COM1A1 = _BV COM1A1 ∧
      (TimerOne.pwm F_CPU pin duty p t).DDRB &&& _BV PORTB1 = _BV PORTB1 ∧
      (TimerOne.pwm F_CPU pin duty p t).OCR1A
        = (TimerOne.setPeriod F_CPU p t).pwmPeriod * duty / 1024) ∧
    (pin = 2 ∨ pin = 10 →
      (TimerOne.pwm F_CPU pin duty p t).TCCR1A &&& _BV COM1B1 = _BV COM1B1 ∧
      (TimerOne.pwm F_CPU pin duty p t).DDRB &&& _BV PORTB2 = _BV PORTB2 ∧
      (TimerOne.pwm F_CPU pin duty p t).OCR1B
        = (TimerOne.setPeriod F_CPU p t).pwmPeriod * duty / 1024) ∧
    (TimerOne.pwm F_CPU pin duty p t).pwmPeriod = (TimerOne.setPeriod F_CPU p t).pwmPeriod ∧
    (TimerOne.pwm F_CPU pin duty p t).clockSelectBits
      = (TimerOne.setPeriod F_CPU p t).clockSelectBits ∧
    (TimerOne.pwm F_CPU pin duty p t).TCCR1B &&& CS_MASK
      = (TimerOne.setPeriod F_CPU p t).clockSelectBits ∧
    (TimerOne.setPeriod F_CPU p t).clockSelectBits ∈ [1, 2, 3, 4, 5] ∧
    (TimerOne.pwm F_CPU pin duty p t).TCNT1 = t.TCNT1 := by
  have hT := setPeriod_pwmPeriod_lt F_CPU p t
  have hc : (TimerOne.setPeriod F_CPU p t).clockSelectBits < 8 := prescale_code_lt _ _
  have hcm : (TimerOne.setPeriod F_CPU p t).clockSelectBits ∈ [1, 2, 3, 4, 5] :=
    prescale_code _ _
  have hB := setPeriod_TCCR1B F_CPU p t
  have hN : (TimerOne.setPeriod F_CPU p t).TCNT1 = t.TCNT1 := rfl
  have ha := duty_arith _ duty hT hd
  have hpwm : TimerOne.pwm F_CPU pin duty p t = TimerOne.pwm 0 pin duty 0
      (TimerOne.setPeriod F_CPU p t) := by
    simp [TimerOne.pwm, hp]
  rw [hpwm]
  generalize TimerOne.setPeriod F_CPU p t = s at hT hc hcm hB hN ha ⊢
  obtain ⟨-, k2, k3⟩ := cs_bits t.TCCR1B s.clockSelectBits hc
  obtain ⟨b1, b2, b3, b4⟩ := enable_bits s.TCCR1A
  obtain ⟨-, -, d3, d4⟩ := enable_bits s.DDRB
  refine ⟨?_, ?_, ?_, ?_, ?_, hcm, ?_⟩
  · intro h
    simp only [TimerOne.pwm, TimerOne.resume, TimerOne.setPwmDuty, TimerOne.cli, h,
      lt_self_iff_false, gt_iff_lt, if_true, if_false]
    exact ⟨b1, d3, ha⟩
  · intro h
    have hn : ¬ (pin = 1 ∨ pin = 9) := by omega
    simp only [TimerOne.pwm, TimerOne.resume, TimerOne.setPwmDuty, TimerOne.cli, h, hn,
      lt_self_iff_false, gt_iff_lt, if_true, if_false]
    exact ⟨b2, d4, ha⟩
  · simp only [TimerOne.pwm, TimerOne.resume, TimerOne.setPwmDuty, TimerOne.cli,
      lt_self_iff_false, gt_iff_lt, if_false]
    split_ifs <;> rfl
  · simp only [TimerOne.pwm, TimerOne.resume, TimerOne.setPwmDuty, TimerOne.cli,
      lt_self_iff_false, gt_iff_lt, if_false]
    split_ifs <;> rfl
  · have e : (TimerOne.pwm 0 pin duty 0 s).TCCR1B = setBits s.TCCR1B s.clockSelectBits := by
      simp only [TimerOne.pwm, TimerOne.resume, TimerOne.setPwmDuty, TimerOne.cli,
      lt_self_iff_false, gt_iff_lt, if_false]
      split_ifs <;> rfl
    rw [e, hB, k3, k2]
  · rw [← hN]
    simp only [TimerOne.pwm, TimerOne.resume, TimerOne.setPwmDuty, TimerOne.cli,
      lt_self_iff_false, gt_iff_lt, if_false]
    split_ifs <;> rfl

/-- A concrete instance of C8: pin 9, duty 512, 1000 microseconds at 16 MHz. -/
theorem pwm_scales_against_new_top_witness :
    (TimerOne.pwm 16000000 9 (512 : Nat) 1000 TimerOne.powerOn).OCR1A = 8000 * 512 / 1024 ∧
    (TimerOne.pwm 16000000 9 (512 : Nat) 1000 TimerOne.powerOn).TCCR1B &&& CS_MASK = 1 :=
  have h := pwm_scales_against_new_top 16000000 9 512 1000 TimerOne.powerOn
    (by decide) (by decide)
  ⟨(h.1 (Or.inr rfl)).2.2, h.2.2.2.2.1⟩

/-! ## Stop, resume and start -/

/-- C9: from a state whose `TCCR1B` (an 8-bit register) carries the retained
`clockSelectBits` in its clock-select bits, `stop()` zeroes the clock-select bits
and the `resume()` that follows restores `TCCR1B` to its value before `stop()`;
`clockSelectBits`, `pwmPeriod`, `TCNT1` and `TIMSK1` are untouched by either call,
so the pair gives back the state it started from. -/
theorem stop_resume_round_trip (t : TimerOne) (hB : t.TCCR1B < 256)
    (hcs : t.TCCR1B &&& CS_MASK = t.clockSelectBits) :
    (TimerOne.stop t).TCCR1B &&& CS_MASK = 0 ∧
    (TimerOne.resume (TimerOne.stop t)).TCCR1B = t.TCCR1B ∧
    ((TimerOne.stop t).clockSelectBits = t.clockSelectBits ∧
      (TimerOne.stop t).pwmPeriod = t.pwmPeriod ∧
      (TimerOne.stop t).TCNT1 = t.TCNT1 ∧
      (TimerOne.stop t).TIMSK1 = t.TIMSK1) ∧
    ((TimerOne.resume (TimerOne.stop t)).clockSelectBits = t.clockSelectBits ∧
      (TimerOne.resume (TimerOne.stop t)).pwmPeriod = t.pwmPeriod ∧
      (TimerOne.resume (TimerOne.stop t)).TCNT1 = t.TCNT1 ∧
      (TimerOne.resume (TimerOne.stop t)).TIMSK1 = t.TIMSK1) ∧
    TimerOne.resume (TimerOne.stop t) = t := by
  have hc : t.clockSelectBits < 8 := by
    rw [← hcs, CS_MASK_eq]
    exact Nat.and_lt_two_pow _ (by norm_num : 7 < 2 ^ 3)
  have h := cs_bits_byte t.TCCR1B hB t.clockSelectBits hc
  rw [CS_MASK_eq] at hcs ⊢
  have hr : setBits (clearBits t.TCCR1B 7) t.clockSelectBits = t.TCCR1B := h.2.2.2 hcs
  have e : (TimerOne.resume (TimerOne.stop t)).TCCR1B = t.TCCR1B := by
    simp only [TimerOne.resume, TimerOne.stop, CS_MASK_eq]
    exact hr
  refine ⟨h.1, e, ⟨rfl, rfl, rfl, rfl⟩, ⟨rfl, rfl, rfl, rfl⟩, ?_⟩
  cases t
  simp only [TimerOne.resume, TimerOne.stop, CS_MASK_eq] at hr e ⊢
  simp only [TimerOne.mk.injEq, true_and, and_true]
  exact hr

/-- A concrete instance of C9: the state left by `setPeriod(1000)` at 16 MHz. -/
theorem stop_resume_round_trip_witness :
    (TimerOne.stop (TimerOne.setPeriod 16000000 1000 TimerOne.powerOn)).TCCR1B &&& CS_MASK = 0 ∧
    TimerOne.resume (TimerOne.stop (TimerOne.setPeriod 16000000 1000 TimerOne.powerOn))
      = TimerOne.setPeriod 16000000 1000 TimerOne.powerOn :=
  have h := stop_resume_round_trip (TimerOne.setPeriod 16000000 1000 TimerOne.powerOn)
    (by decide) (by decide)
  ⟨h.1, h.2.2.2.2⟩

/-- With no clock source selected and the counter at zero, the wait loop of
`start()` does not leave, however many times it polls. -/
theorem startWait_halted (hw : Nat → Nat) (fuel : Nat) (t : TimerOne)
    (hcs : t.TCCR1B &&& CS_MASK = 0) (h0 : t.TCNT1 = 0) :
    TimerOne.startWait hw fuel t = none := by
  induction fuel generalizing t with
  | zero => rfl
  | succ n ih =>
    unfold TimerOne.startWait
    simp only [TimerOne.counterRuns, hcs, if_true, TimerOne.cli, h0]
    exact ih _ hcs rfl

/-- With a clock source selected, the wait loop of `start()` leaves at the first
poll that shows a nonzero count; the state it returns has the overflow interrupt
disabled and the clock-select bits and `SREG` as they were. -/
theorem start_returns_when_running (hw : Nat → Nat) (fuel : Nat) (t : TimerOne)
    (hcs : t.TCCR1B &&& CS_MASK ≠ 0) (hmove : hw fuel % 65536 ≠ 0) :
    ∃ t', TimerOne.start hw (fuel + 1) t = some t' ∧ t'.TCCR1B = t.TCCR1B ∧
      t'.TIMSK1 = clearBits t.TIMSK1 (_BV TOIE1) ∧ t'.SREG = t.SREG ∧
      t'.TCNT1 = hw fuel % 65536 := by
  have e : (TimerOne.startWrites t).TCCR1B = t.TCCR1B := rfl
  unfold TimerOne.start TimerOne.startWait
  simp only [TimerOne.counterRuns, e, hcs, if_false, hmove, TimerOne.cli]
  exact ⟨_, rfl, rfl, rfl, rfl, rfl⟩

/-- C10: `start()` after `stop()` does not leave the timer running.  From the state
left by `initialize(1000000)` and `stop()` at 16 MHz, the register writes of
`start()` reset the counter and disable the overflow interrupt but leave the
clock-select bits of `TCCR1B` at zero although `clockSelectBits` retains the
prescaler code 4; the counter then stays at zero and the wait loop returns for no
number of polls. -/
theorem start_after_stop_stays_stopped :
    (TimerOne.stop ( TimerOne.initialize 16000000 1000000 TimerOne.powerOn)).clockSelectBits = 4 ∧
    (TimerOne.startWrites
      (TimerOne.stop ( TimerOne.initialize 16000000 1000000 TimerOne.powerOn))).TCCR1B
        &&& CS_MASK = 0 ∧
    (TimerOne.startWrites
      (TimerOne.stop ( TimerOne.initialize 16000000 1000000 TimerOne.powerOn))).TCNT1 = 0 ∧
    (TimerOne.startWrites
      (TimerOne.stop ( TimerOne.initialize 16000000 1000000 TimerOne.powerOn))).TIMSK1
        &&& _BV TOIE1 = 0 ∧
    ∀ (hw : Nat → Nat) (fuel : Nat),
      TimerOne.start hw fuel
        (TimerOne.stop ( TimerOne.initialize 16000000 1000000 TimerOne.powerOn)) = none := by
  refine ⟨by decide, by decide, by decide, by decide, ?_⟩
  intro hw fuel
  exact startWait_halted hw fuel _ (by decide) (by decide)

/-! ## Interrupt binding -/

set_option maxRecDepth 100000 in
theorem clear_bits_byte : ∀ x, x < 256 →
    clearBits x 1 &&& 1 = 0 ∧
    (clearBits x 128 &&& 128 = 0 ∧ clearBits x 128 &&& 32 = x &&& 32 ∧
      clearBits x 128 + (x &&& 128) = x) ∧
    (clearBits x 32 &&& 32 = 0 ∧ clearBits x 32 &&& 128 = x &&& 128 ∧
      clearBits x 32 + (x &&& 32) = x) ∧
    clearBits x 128 &&& 128 = 0 := by
  decide

/-- After `reg &= ~_BV(TOIE1)` the overflow-interrupt-enable bit reads as clear. -/
theorem clear_TOIE1 (r : Nat) : clearBits r (_BV TOIE1) &&& _BV TOIE1 = 0 := by
  have e : _BV TOIE1 = 1 := by decide
  rw [e, clearBits_mod r 1]
  exact (clear_bits_byte (r % 256) (Nat.mod_lt _ (by norm_num))).1

/-- C11: for all callbacks `cb`, `cb2` and every period `p`, after
`attachInterrupt(cb, p)`, `detachInterrupt()`, `attachInterrupt(cb2, p)` the
handler the overflow trampoline invokes is `cb2` and the overflow-interrupt-enable
bit is set; `detachInterrupt()` alone, from any state, leaves the enable bit clear
and the stored callback as it was. -/
theorem attach_detach_attach (F_CPU cb cb2 : Nat) (p : Int) (t : TimerOne) :
    TIMER1_OVF_vect (TimerOne.attachInterrupt F_CPU cb2 p
      (TimerOne.detachInterrupt (TimerOne.attachInterrupt F_CPU cb p t))) = cb2 ∧
    (TimerOne.attachInterrupt F_CPU cb2 p
      (TimerOne.detachInterrupt (TimerOne.attachInterrupt F_CPU cb p t))).TIMSK1
        &&& _BV TOIE1 = _BV TOIE1 ∧
    TIMER1_OVF_vect (TimerOne.attachInterrupt F_CPU cb p t) = cb ∧
    TIMER1_OVF_vect (TimerOne.detachInterrupt (TimerOne.attachInterrupt F_CPU cb p t)) = cb ∧
    (TimerOne.detachInterrupt t).TIMSK1 &&& _BV TOIE1 = 0 ∧
    (TimerOne.detachInterrupt t).isrCallback = t.isrCallback := by
  refine ⟨rfl, ?_, rfl, rfl, clear_TOIE1 _, rfl⟩
  have e : (TimerOne.attachInterrupt F_CPU cb2 p
      (TimerOne.detachInterrupt (TimerOne.attachInterrupt F_CPU cb p t))).TIMSK1
        = _BV TOIE1 := rfl
  rw [e]
  decide

/-! ## Frame conditions -/

/-- C12: `TimerThree::restart()` sets `TCNT3` to 0 and changes nothing else: the
interrupt-enable register, `TCCR3B` with its clock-select bits, `clockSelectBits`,
`pwmPeriod` and the three compare registers keep their values. -/
theorem restart_only_counter (t : TimerThree) :
    (TimerThree.restart t).TCNT3 = 0 ∧
    (TimerThree.restart t).TIMSK3 = t.TIMSK3 ∧
    (TimerThree.restart t).TCCR3B = t.TCCR3B ∧
    (TimerThree.restart t).TCCR3B &&& CS_MASK = t.TCCR3B &&& CS_MASK ∧
    (TimerThree.restart t).clockSelectBits = t.clockSelectBits ∧
    (TimerThree.restart t).pwmPeriod = t.pwmPeriod ∧
    (TimerThree.restart t).OCR3A = t.OCR3A ∧
    (TimerThree.restart t).OCR3B = t.OCR3B ∧
    (TimerThree.restart t).OCR3C = t.OCR3C ∧
    TimerThree.restart t = { t with TCNT3 := 0 } :=
  ⟨rfl, rfl, rfl, rfl, rfl, rfl, rfl, rfl, rfl, rfl⟩

/-- C13: on an 8-bit `TCCR1A`, `disablePwm` on pin 1 or 9 removes exactly the bit
COM1A1 and on pin 2 or 10 exactly the bit COM1B1: the bit reads as clear, the
enable bit of the other channel and every other bit keep their values, and no
other register or member changes (`TCCR1B` with the clock-select bits, `OCR1A`,
`OCR1B`, `pwmPeriod`, `ICR1`, `clockSelectBits`, `TIMSK1` among them). -/
theorem disablePwm_only_enable_bit (pin : Int) (t : TimerOne) (hA : t.TCCR1A < 256) :
    (pin = 1 ∨ pin = 9 →
      (TimerOne.disablePwm pin t).TCCR1A &&& _BV COM1A1 = 0 ∧
      (TimerOne.disablePwm pin t).TCCR1A &&& _BV COM1B1 = t.TCCR1A &&& _BV COM1B1 ∧
      (TimerOne.disablePwm pin t).TCCR1A + (t.TCCR1A &&& _BV COM1A1) = t.TCCR1A) ∧
    (pin = 2 ∨ pin = 10 →
      (TimerOne.disablePwm pin t).TCCR1A &&& _BV COM1B1 = 0 ∧
      (TimerOne.disablePwm pin t).TCCR1A &&& _BV COM1A1 = t.TCCR1A &&& _BV COM1A1 ∧
      (TimerOne.disablePwm pin t).TCCR1A + (t.TCCR1A &&& _BV COM1B1) = t.TCCR1A) ∧
    TimerOne.disablePwm pin t = { t with TCCR1A := (TimerOne.disablePwm pin t).TCCR1A } ∧
    (TimerOne.disablePwm pin t).TCCR1B = t.TCCR1B ∧
    (TimerOne.disablePwm pin t).OCR1A = t.OCR1A ∧
    (TimerOne.disablePwm pin t).OCR1B = t.OCR1B ∧
    (TimerOne.disablePwm pin t).pwmPeriod = t.pwmPeriod ∧
    (TimerOne.disablePwm pin t).ICR1 = t.ICR1 ∧
    (TimerOne.disablePwm pin t).clockSelectBits = t.clockSelectBits ∧
    (TimerOne.disablePwm pin t).TIMSK1 = t.TIMSK1 := by
  have eA : _BV COM1A1 = 128 := by decide
  have eB : _BV COM1B1 = 32 := by decide
  obtain ⟨-, ⟨a1, a2, a3⟩, ⟨b1, b2, b3⟩, -⟩ := clear_bits_byte t.TCCR1A hA
  rw [eA, eB]
  refine ⟨?_, ?_, ?_, ?_, ?_, ?_, ?_, ?_, ?_, ?_⟩
  · intro h
    simp only [TimerOne.disablePwm, h, if_true, eA]
    exact ⟨a1, a2, a3⟩
  · intro h
    have hn : ¬ (pin = 1 ∨ pin = 9) := by omega
    simp only [TimerOne.disablePwm, h, hn, if_true, if_false, eB]
    exact ⟨b1, b2, b3⟩
  all_goals
    unfold TimerOne.disablePwm
    split_ifs <;> rfl

/-- A concrete instance of C13: both channels enabled, pin 9 disabled. -/
theorem disablePwm_only_enable_bit_witness :
    (TimerOne.disablePwm 9 { TimerOne.powerOn with TCCR1A := 160 }).TCCR1A &&& _BV COM1A1 = 0 ∧
    (TimerOne.disablePwm 9 { TimerOne.powerOn with TCCR1A := 160 }).TCCR1A &&& _BV COM1B1
      = 160 &&& _BV COM1B1 :=
  have h := disablePwm_only_enable_bit 9 { TimerOne.powerOn with TCCR1A := 160 } (by decide)
  ⟨(h.1 (Or.inr rfl)).1, (h.1 (Or.inr rfl)).2.1⟩

/-- C14: for a pin outside 1, 9, 2, 10 and any duty, `TimerOne::setPwmDuty` changes
only the scratch member `oldSREG` (every register, `SREG` included, and `pwmPeriod`
and `clockSelectBits` are as before) and `TimerOne::disablePwm` changes nothing;
for a pin outside 5, 2, 3, `TimerThree::setPwmDuty` and `TimerThree::disablePwm`
change nothing. -/
theorem unmapped_pin_ignored (pin duty : Int) (t : TimerOne) (u : TimerThree) :
    (pin ≠ 1 → pin ≠ 9 → pin ≠ 2 → pin ≠ 10 →
      TimerOne.setPwmDuty pin duty t = { t with oldSREG := t.SREG } ∧
      TimerOne.disablePwm pin t = t) ∧
    (pin ≠ 5 → pin ≠ 2 → pin ≠ 3 →
      TimerThree.setPwmDuty pin duty u = u ∧ TimerThree.disablePwm pin u = u) := by
  constructor
  · intro h1 h9 h2 h10
    simp [TimerOne.setPwmDuty, TimerOne.disablePwm, TimerOne.cli, h1, h9, h2, h10]
  · intro h5 h2 h3
    simp [TimerThree.setPwmDuty, TimerThree.disablePwm, h5, h2, h3]

set_option maxRecDepth 100000 in
theorem resume_bits_byte : ∀ x, x < 256 →
    setBits x (x &&& 7) = x ∧
    (∀ c, c < 8 → x &&& 7 = 0 → setBits x c &&& 7 = c) ∧
    (∀ c, c < 6 → setBits x c &&& 16 = x &&& 16 ∧ clearBits x 7 &&& 16 = x &&& 16) := by
  decide

/-- C15 as stated fails: from the STOPPED state left by `initialize(1000000)` and
`stop()` at 16 MHz, `pwm(3, 0, -1)` on the unmapped pin 3 changes `TCCR1B` (from 16
to 20): the clock-select bits go from 0 back to the retained code 4. -/
theorem pwm_unmapped_restarts_clock :
    ¬ ((TimerOne.pwm 16000000 3 0 (-1)
          (TimerOne.stop ( TimerOne.initialize 16000000 1000000 TimerOne.powerOn))).TCCR1B
        = (TimerOne.stop ( TimerOne.initialize 16000000 1000000 TimerOne.powerOn)).TCCR1B) := by
  decide

/-- C15, amended: for a pin outside 1, 9, 2, 10 and `microseconds <= 0`,
`TimerOne::pwm` changes nothing but the scratch member `oldSREG` and `TCCR1B`, into
which `resume()` ORs `clockSelectBits`.  Where the clock-select bits of an 8-bit
`TCCR1B` already equal `clockSelectBits` (RUNNING) `TCCR1B` is unchanged too; where
they are zero (STOPPED) they become `clockSelectBits`, so the clock is resumed. -/
theorem pwm_unmapped_only_resumes (F_CPU : Nat) (pin duty microseconds : Int) (t : TimerOne)
    (h1 : pin ≠ 1) (h9 : pin ≠ 9) (h2 : pin ≠ 2) (h10 : pin ≠ 10) (hus : microseconds ≤ 0) :
    TimerOne.pwm F_CPU pin duty microseconds t
      = { t with oldSREG := t.SREG, TCCR1B := setBits t.TCCR1B t.clockSelectBits } ∧
    (t.TCCR1B < 256 → t.TCCR1B &&& CS_MASK = t.clockSelectBits →
      (TimerOne.pwm F_CPU pin duty microseconds t).TCCR1B = t.TCCR1B) ∧
    (t.TCCR1B < 256 → t.clockSelectBits < 8 → t.TCCR1B &&& CS_MASK = 0 →
      (TimerOne.pwm F_CPU pin duty microseconds t).TCCR1B &&& CS_MASK = t.clockSelectBits) := by
  have hn : ¬ (microseconds > 0) := by omega
  have e : TimerOne.pwm F_CPU pin duty microseconds t
      = { t with oldSREG := t.SREG, TCCR1B := setBits t.TCCR1B t.clockSelectBits } := by
    simp [TimerOne.pwm, TimerOne.setPwmDuty, TimerOne.resume, TimerOne.cli, h1, h9, h2, h10, hn]
  rw [e, CS_MASK_eq]
  refine ⟨rfl, ?_, ?_⟩
  · intro hB hcs
    have h := (resume_bits_byte t.TCCR1B hB).1
    rw [hcs] at h
    exact h
  · intro hB hc h0
    exact (resume_bits_byte t.TCCR1B hB).2.1 _ hc h0

/-- A concrete instance of amended C15: pin 3 on the running timer left by
`initialize(1000000)` at 16 MHz. -/
theorem pwm_unmapped_only_resumes_witness :
    (TimerOne.pwm 16000000 3 512 (-1)
        ( TimerOne.initialize 16000000 1000000 TimerOne.powerOn)).TCCR1B
      = ( TimerOne.initialize 16000000 1000000 TimerOne.powerOn).TCCR1B :=
  (pwm_unmapped_only_resumes 16000000 3 512 (-1)
    ( TimerOne.initialize 16000000 1000000 TimerOne.powerOn)
    (by decide) (by decide) (by decide) (by decide) (by decide)).2.1 (by decide) (by decide)

/-! ## The elapsed-time reader -/

/-- C16: after `TimerOne::setPeriod(p)`, for any `p`, `clockSelectBits` is one of
the five values the `switch` of `read()` has a case for, and the scale the switch
yields is the base-2 logarithm of the selected divisor: 0, 3, 6, 8, 10 for codes
1, 2, 3, 4, 5 (DIV1, DIV8, DIV64, DIV256, DIV1024). -/
theorem read_scale_matches_prescaler (F_CPU : Nat) (p : Int) (t : TimerOne) :
    (TimerOne.setPeriod F_CPU p t).clockSelectBits ∈ [1, 2, 3, 4, 5] ∧
    ((2 : Int) ^ readScale (TimerOne.setPeriod F_CPU p t).clockSelectBits
      = divisorOf (TimerOne.setPeriod F_CPU p t).clockSelectBits) ∧
    ((TimerOne.setPeriod F_CPU p t).clockSelectBits,
      readScale (TimerOne.setPeriod F_CPU p t).clockSelectBits)
        ∈ [(1, 0), (2, 3), (3, 6), (4, 8), (5, 10)] := by
  have h : (TimerOne.setPeriod F_CPU p t).clockSelectBits ∈ [1, 2, 3, 4, 5] :=
    prescale_code _ _
  refine ⟨h, ?_, ?_⟩ <;>
    · generalize (TimerOne.setPeriod F_CPU p t).clockSelectBits = c at h ⊢
      simp only [List.mem_cons, List.mem_singleton, List.not_mem_nil, or_false] at h
      rcases h with rfl | rfl | rfl | rfl | rfl <;> decide

/-- The conversion of `read()` at 16 MHz on a tick count up to `2 * 65535`:
neither the product nor the shift leaves 32 bits, and the value is the tick count
divided by 16, times the prescale divisor. -/
theorem readMicros_16MHz (ticks s : Nat) (ht : ticks ≤ 2 * 65535)
    (hs : s ∈ [0, 3, 6, 8, 10]) :
    ticks * 1000 < 4294967296 ∧ (ticks * 1000 / 16000) <<< s < 4294967296 ∧
    readMicros 16000000 ticks s = ticks / 16 * 2 ^ s := by
  have e : readMicros 16000000 ticks s
      = ((ticks * 1000 % 4294967296) / 16000) <<< s % 4294967296 := rfl
  have hq : ticks * 1000 / 16000 = ticks / 16 :=
    Nat.mul_div_mul_right ticks 16 (by norm_num : 0 < 1000)
  have hm : ticks * 1000 % 4294967296 = ticks * 1000 := Nat.mod_eq_of_lt (by omega)
  rw [e, hm, hq]
  clear e hm hq
  simp only [List.mem_cons, List.mem_singleton, List.not_mem_nil, or_false] at hs
  rcases hs with rfl | rfl | rfl | rfl | rfl <;>
    simp only [Nat.shiftLeft_eq, Nat.reducePow] <;> omega

/-- C20: at `F_CPU = 16000000`, for every tick count `t <= 2 * 65535` and every
scale `s` among 0, 3, 6, 8, 10, the product `t * 1000` and the shifted quotient stay
below `2^32`, and the value `read()` returns is at most the exact elapsed time
`t * 2^s / 16` microseconds and less than `2^s` microseconds below it. -/
theorem read_conversion_accuracy (ticks s : Nat) (ht : ticks ≤ 2 * 65535)
    (hs : s ∈ [0, 3, 6, 8, 10]) :
    ticks * 1000 < 4294967296 ∧ (ticks * 1000 / 16000) <<< s < 4294967296 ∧
    readMicros 16000000 ticks s = (ticks * 1000 / 16000) <<< s ∧
    (readMicros 16000000 ticks s : ℚ) ≤ (ticks : ℚ) * 2 ^ s / 16 ∧
    (ticks : ℚ) * 2 ^ s / 16 - (readMicros 16000000 ticks s : ℚ) < 2 ^ s := by
  obtain ⟨h1, h2, h3⟩ := readMicros_16MHz ticks s ht hs
  have hq : ticks * 1000 / 16000 = ticks / 16 :=
    Nat.mul_div_mul_right ticks 16 (by norm_num : 0 < 1000)
  have hlo : (ticks / 16 : Nat) * 16 ≤ ticks := Nat.div_mul_le_self ticks 16
  have hhi : ticks < (ticks / 16 : Nat) * 16 + 16 := by omega
  have hlo' : ((ticks / 16 : Nat) : ℚ) * 16 ≤ (ticks : ℚ) := by exact_mod_cast hlo
  have hhi' : (ticks : ℚ) < ((ticks / 16 : Nat) : ℚ) * 16 + 16 := by exact_mod_cast hhi
  have hpos : (0 : ℚ) < 2 ^ s := by positivity
  refine ⟨h1, h2, ?_, ?_, ?_⟩
  · rw [h3, hq, Nat.shiftLeft_eq]
  · rw [h3]
    push_cast
    rw [le_div_iff₀ (by norm_num : (0 : ℚ) < 16)]
    nlinarith
  · rw [h3]
    push_cast
    rw [sub_lt_iff_lt_add, div_lt_iff₀ (by norm_num : (0 : ℚ) < 16)]
    nlinarith

/-- A concrete instance of C20: 100000 ticks under DIV64. -/
theorem read_conversion_accuracy_witness :
    readMicros 16000000 100000 6 = (100000 * 1000 / 16000) <<< 6 ∧
    (readMicros 16000000 100000 6 : ℚ) ≤ ((100000 : Nat) : ℚ) * 2 ^ 6 / 16 :=
  have h := read_conversion_accuracy 100000 6 (by decide) (by decide)
  ⟨h.2.2.1, h.2.2.2.1⟩

theorem readScale_le (c : Nat) : readScale c ≤ 10 := by
  unfold readScale
  split <;> omega

/-- The conversion of `read()` without wrap-around: for a clock of at least 1 MHz,
a tick count up to `2 * 65535` and a scale up to 10. -/
theorem readMicros_of_range (F_CPU x s : Nat) (hF : 1000000 ≤ F_CPU) (hx : x ≤ 2 * 65535)
    (hs : s ≤ 10) : readMicros F_CPU x s = x * 1000 / (F_CPU / 1000) * 2 ^ s := by
  have hd : 1000 ≤ F_CPU / 1000 := by omega
  have hq : x * 1000 / (F_CPU / 1000) ≤ x := by
    calc x * 1000 / (F_CPU / 1000) ≤ x * 1000 / 1000 :=
          Nat.div_le_div_left hd (by norm_num)
      _ = x := Nat.mul_div_cancel x (by norm_num)
  have hp : 2 ^ s ≤ 1024 := by
    calc 2 ^ s ≤ 2 ^ 10 := Nat.pow_le_pow_right (by norm_num) hs
      _ = 1024 := by norm_num
  have hlt : x * 1000 / (F_CPU / 1000) * 2 ^ s < 4294967296 := by
    calc x * 1000 / (F_CPU / 1000) * 2 ^ s ≤ (2 * 65535) * 1024 :=
          Nat.mul_le_mul (le_trans hq hx) hp
      _ < 4294967296 := by norm_num
  unfold readMicros
  rw [Nat.mod_eq_of_lt (by omega : x * 1000 < 4294967296), Nat.shiftLeft_eq,
    Nat.mod_eq_of_lt hlt]

/-- The tick count `read()` derives from a down-counting pair of samples. -/
theorem readTicks_down (top tmp tcnt1 : Nat) (h16 : top < 65536) (h : tcnt1 < tmp)
    (hle : tmp ≤ top) : readTicks top tmp tcnt1 = top - tcnt1 + top := by
  unfold readTicks
  rw [if_neg (by omega)]
  unfold toULong toLong toUInt
  omega

/-- The tick count `read()` derives from an up-counting pair of samples. -/
theorem readTicks_up (top tmp tcnt1 : Nat) (h : tmp < tcnt1) :
    readTicks top tmp tcnt1 = tmp := by
  unfold readTicks
  rw [if_pos h]

/-- With a clock source selected and a first poll that shows a count other than
the first sample, `read()` returns after that poll with the value computed from
the two samples. -/
theorem read_first_poll (F_CPU : Nat) (hw : Nat → Nat) (t : TimerOne)
    (hrun : t.TCCR1B &&& CS_MASK ≠ 0) (hne : hw 0 % 65536 ≠ t.TCNT1) :
    (TimerOne.read F_CPU hw 1 t).map Prod.snd
      = some (readMicros F_CPU (readTicks t.ICR1 t.TCNT1 (hw 0 % 65536))
          (readScale t.clockSelectBits)) := by
  unfold TimerOne.read TimerOne.readWait
  simp only [TimerOne.counterRuns, TimerOne.cli, hrun, if_false, hne]
  rfl

/-- C17 as stated fails: on the timer left by `setPeriod(3)` at 16 MHz (top value
24, DIV1), the up-counting pair 23, 24 and the down-counting pair 24, 23 both make
`read()` return 1, from 23 and from `(24 - 23) + 24 = 25` ticks. -/
theorem read_before_wrap_not_below :
    ¬ (∀ vu vd : Nat,
        (TimerOne.read 16000000 (fun _ => 24) 1
          { TimerOne.setPeriod 16000000 3 TimerOne.powerOn with TCNT1 := 23 }).map Prod.snd
          = some vu →
        (TimerOne.read 16000000 (fun _ => 23) 1
          { TimerOne.setPeriod 16000000 3 TimerOne.powerOn with TCNT1 := 24 }).map Prod.snd
          = some vd →
        vu < vd) := by
  intro h
  exact absurd (h 1 1 (by decide) (by decide)) (by decide)

/-- C17, amended: for a clock of at least 1 MHz, a running timer with a 16-bit top
value `ICR1 = top`, an up-counting pair `a1 < a2 <= top` and a down-counting pair
`b2 < b1 <= top`, `read()` converts `a1` ticks for the first pair and
`(top - b2) + top` ticks for the second; the first tick count is strictly below the
second, and the microsecond value returned for the first pair is at most the value
returned for the second. -/
theorem read_up_before_down (F_CPU top a1 a2 b1 b2 : Nat) (t : TimerOne)
    (hF : 1000000 ≤ F_CPU) (hrun : t.TCCR1B &&& CS_MASK ≠ 0) (htop : t.ICR1 = top)
    (h16 : top < 65536) (hup : a1 < a2) (hup' : a2 ≤ top) (hdn : b2 < b1) (hdn' : b1 ≤ top) :
    (TimerOne.read F_CPU (fun _ => a2) 1 { t with TCNT1 := a1 }).map Prod.snd
      = some (readMicros F_CPU a1 (readScale t.clockSelectBits)) ∧
    (TimerOne.read F_CPU (fun _ => b2) 1 { t with TCNT1 := b1 }).map Prod.snd
      = some (readMicros F_CPU (top - b2 + top) (readScale t.clockSelectBits)) ∧
    a1 < top - b2 + top ∧
    readMicros F_CPU a1 (readScale t.clockSelectBits)
      ≤ readMicros F_CPU (top - b2 + top) (readScale t.clockSelectBits) := by
  subst htop
  have ha2 : a2 % 65536 = a2 := Nat.mod_eq_of_lt (by omega)
  have hb2 : b2 % 65536 = b2 := Nat.mod_eq_of_lt (by omega)
  have ru := read_first_poll F_CPU (fun _ => a2) { t with TCNT1 := a1 } hrun
    (by simp only [ha2]; omega)
  have rd := read_first_poll F_CPU (fun _ => b2) { t with TCNT1 := b1 } hrun
    (by simp only [hb2]; omega)
  simp only [ha2, hb2] at ru rd
  rw [readTicks_up t.ICR1 a1 a2 hup] at ru
  rw [readTicks_down t.ICR1 b1 b2 h16 hdn hdn'] at rd
  refine ⟨ru, rd, by omega, ?_⟩
  rw [readMicros_of_range F_CPU a1 _ hF (by omega) (readScale_le _),
    readMicros_of_range F_CPU (t.ICR1 - b2 + t.ICR1) _ hF (by omega) (readScale_le _)]
  exact Nat.mul_le_mul_right _ (Nat.div_le_div_right (by omega))

/-- A concrete instance of amended C17: the timer left by `setPeriod(1000)` at
16 MHz (top value 8000), pairs 100, 101 and 7000, 6999. -/
theorem read_up_before_down_witness :
    readMicros 16000000 100 (readScale (TimerOne.setPeriod 16000000 1000 TimerOne.powerOn).clockSelectBits)
      ≤ readMicros 16000000 (8000 - 6999 + 8000)
          (readScale (TimerOne.setPeriod 16000000 1000 TimerOne.powerOn).clockSelectBits) :=
  (read_up_before_down 16000000 8000 100 101 7000 6999
    (TimerOne.setPeriod 16000000 1000 TimerOne.powerOn)
    (by decide) (by decide) (by decide) (by decide) (by decide) (by decide) (by decide)
    (by decide)).2.2.2

/-! ## The run-state invariant -/

set_option maxRecDepth 100000 in
theorem run_state_byte_set : ∀ x, x < 256 → ∀ c, c < 6 → x &&& 16 = 16 →
    (setBits (clearBits x 7) c &&& 7 = c ∧ setBits (clearBits x 7) c &&& 16 = 16) ∧
    (clearBits x 7 &&& 7 = 0 ∧ clearBits x 7 &&& 16 = 16) := by
  decide

set_option maxRecDepth 100000 in
theorem run_state_byte_or : ∀ x, x < 256 → ∀ c, c < 6 → x &&& 16 = 16 →
    (x &&& 7 = 0 ∨ x &&& 7 = c → setBits x c &&& 7 = c ∧ setBits x c &&& 16 = 16) := by
  decide

/-- The three ways the member functions change an 8-bit `TCCR1B` with WGM13 set,
for a code `c` of 1..5: clearing the clock-select bits and ORing `c` in leaves
`c`, clearing leaves 0, ORing `c` in leaves `c` if the bits were 0 or `c`; WGM13
stays set throughout. -/
theorem run_state_byte (x : Nat) (hx : x < 256) (c : Nat) (hc : c < 6) (hw : x &&& 16 = 16) :
    (setBits (clearBits x 7) c &&& 7 = c ∧ setBits (clearBits x 7) c &&& 16 = 16) ∧
    (clearBits x 7 &&& 7 = 0 ∧ clearBits x 7 &&& 16 = 16) ∧
    (x &&& 7 = 0 ∨ x &&& 7 = c → setBits x c &&& 7 = c ∧ setBits x c &&& 16 = 16) :=
  ⟨(run_state_byte_set x hx c hc hw).1, (run_state_byte_set x hx c hc hw).2,
    run_state_byte_or x hx c hc hw⟩

theorem setBits_lt (r m : Nat) : setBits r m < 256 := Nat.mod_lt _ (by norm_num)

theorem clearBits_lt (r m : Nat) : clearBits r m < 256 := Nat.mod_lt _ (by norm_num)

theorem code_lt_six (c : Nat) (h : c ∈ [1, 2, 3, 4, 5]) : c < 6 := by
  simp only [List.mem_cons, List.mem_singleton, List.not_mem_nil, or_false] at h
  omega

theorem BV_WGM13_eq : _BV WGM13 = 16 := by decide

/-- `setPeriod` establishes the invariant from any state with WGM13 set. -/
theorem runState8_setPeriod (F_CPU : Nat) (p : Int) (t : TimerOne) (h8 : t.TCCR1B < 256)
    (hw : t.TCCR1B &&& 16 = 16) : RunState8 (TimerOne.setPeriod F_CPU p t) := by
  have hc : (TimerOne.setPeriod F_CPU p t).clockSelectBits ∈ [1, 2, 3, 4, 5] :=
    prescale_code _ _
  have hb := setPeriod_TCCR1B F_CPU p t
  obtain ⟨⟨a1, a2⟩, -, -⟩ := run_state_byte t.TCCR1B h8 _ (code_lt_six _ hc) hw
  rw [CS_MASK_eq] at hb
  rw [← hb] at a1 a2
  refine ⟨⟨hc, Or.inr ?_, ?_, setPeriod_ICR1 F_CPU p t⟩, ?_⟩
  · rw [CS_MASK_eq]; exact a1
  · rw [BV_WGM13_eq]; exact a2
  · rw [hb]; exact setBits_lt _ _

/-- A state that differs from one satisfying the invariant by a `resume()` at
most satisfies it. -/
theorem runState8_resumed (s t : TimerOne) (hs : RunState8 s)
    (hB : t.TCCR1B = setBits s.TCCR1B s.clockSelectBits)
    (hc : t.clockSelectBits = s.clockSelectBits) (hI : t.ICR1 = s.ICR1)
    (hP : t.pwmPeriod = s.pwmPeriod) : RunState8 t := by
  obtain ⟨⟨s1, s2, s3, s4⟩, s5⟩ := hs
  rw [CS_MASK_eq] at s2
  rw [BV_WGM13_eq] at s3
  obtain ⟨-, -, a⟩ := run_state_byte s.TCCR1B s5 _ (code_lt_six _ s1) s3
  obtain ⟨a1, a2⟩ := a s2
  rw [← hB] at a1 a2
  refine ⟨⟨by rw [hc]; exact s1, Or.inr ?_, ?_, by rw [hI, hP, s4]⟩, ?_⟩
  · rw [CS_MASK_eq, hc]; exact a1
  · rw [BV_WGM13_eq]; exact a2
  · rw [hB]; exact setBits_lt _ _

/-- A state that agrees with one satisfying the invariant on `TCCR1B`,
`clockSelectBits`, `ICR1` and `pwmPeriod` satisfies it. -/
theorem runState8_frame (s t : TimerOne) (hs : RunState8 s) (hB : t.TCCR1B = s.TCCR1B)
    (hc : t.clockSelectBits = s.clockSelectBits) (hI : t.ICR1 = s.ICR1)
    (hP : t.pwmPeriod = s.pwmPeriod) : RunState8 t := by
  unfold RunState8 TimerOne.RunState at hs ⊢
  rw [hB, hc, hI, hP]
  exact hs

theorem runState8_stop (t : TimerOne) (h : RunState8 t) : RunState8 (TimerOne.stop t) := by
  obtain ⟨⟨s1, s2, s3, s4⟩, s5⟩ := h
  rw [BV_WGM13_eq] at s3
  obtain ⟨-, ⟨a1, a2⟩, -⟩ := run_state_byte t.TCCR1B s5 _ (code_lt_six _ s1) s3
  have hB : (TimerOne.stop t).TCCR1B = clearBits t.TCCR1B 7 := by
    unfold TimerOne.stop
    rw [CS_MASK_eq]
  refine ⟨⟨s1, Or.inl ?_, ?_, s4⟩, ?_⟩
  · rw [CS_MASK_eq, hB]; exact a1
  · rw [BV_WGM13_eq, hB]; exact a2
  · rw [hB]; exact clearBits_lt _ _

/-- The state in which `pwm` and `attachInterrupt` continue after their optional
`setPeriod` satisfies the invariant. -/
theorem runState8_optional_setPeriod (F_CPU : Nat) (microseconds : Int) (t : TimerOne)
    (h : RunState8 t) :
    RunState8 (if microseconds > 0 then TimerOne.setPeriod F_CPU microseconds t else t) := by
  split_ifs
  · have h3 := h.1.2.2.1
    rw [BV_WGM13_eq] at h3
    exact runState8_setPeriod F_CPU microseconds t h.2 h3
  · exact h

/-- Every call preserves the invariant. -/
theorem runState8_call (F_CPU : Nat) (c : TimerOne.Call) (t : TimerOne) (h : RunState8 t) :
    RunState8 (c.run F_CPU t) := by
  cases c with
  | setPeriod microseconds =>
    have h3 := h.1.2.2.1
    rw [BV_WGM13_eq] at h3
    exact runState8_setPeriod F_CPU microseconds t h.2 h3
  | pwm pin duty microseconds =>
    refine runState8_resumed _ _ (runState8_optional_setPeriod F_CPU microseconds t h)
      ?_ ?_ ?_ ?_ <;>
    · simp only [TimerOne.Call.run, TimerOne.pwm, TimerOne.resume, TimerOne.setPwmDuty,
        TimerOne.cli]
      split_ifs <;> rfl
  | setPwmDuty pin duty =>
    refine runState8_frame t _ h ?_ ?_ ?_ ?_ <;>
    · simp only [TimerOne.Call.run, TimerOne.setPwmDuty, TimerOne.cli]
      split_ifs <;> rfl
  | disablePwm pin =>
    refine runState8_frame t _ h ?_ ?_ ?_ ?_ <;>
    · simp only [TimerOne.Call.run, TimerOne.disablePwm]
      split_ifs <;> rfl
  | attachInterrupt isr microseconds =>
    exact runState8_resumed _ _ (runState8_optional_setPeriod F_CPU microseconds t h)
      rfl rfl rfl rfl
  | detachInterrupt => exact runState8_frame t _ h rfl rfl rfl rfl
  | stop => exact runState8_stop t h
  | resume => exact runState8_resumed t _ h rfl rfl rfl rfl

theorem runState8_calls (F_CPU : Nat) (calls : List TimerOne.Call) (t : TimerOne)
    (h : RunState8 t) : RunState8 (TimerOne.runCalls F_CPU calls t) := by
  induction calls generalizing t with
  | nil => exact h
  | cons c rest ih => exact ih _ (runState8_call F_CPU c t h)

/-- C19: in every state reached from `initialize(p0)` by any sequence of calls of
`setPeriod`, `pwm`, `setPwmDuty`, `disablePwm`, `attachInterrupt`,
`detachInterrupt`, `stop` and `resume`, with any periods and from any starting
state, `clockSelectBits` is one of 1..5, the clock-select bits of `TCCR1B` are
either 0 or exactly `clockSelectBits`, the mode bit WGM13 is set and `ICR1`
equals `pwmPeriod`. -/
theorem run_state_invariant (F_CPU : Nat) (p0 : Int) (t0 : TimerOne)
    (calls : List TimerOne.Call) :
    TimerOne.RunState
      (TimerOne.runCalls F_CPU calls ( TimerOne.initialize F_CPU p0 t0)) := by
  have h0 : RunState8 ( TimerOne.initialize F_CPU p0 t0) :=
    runState8_setPeriod F_CPU p0 { t0 with TCCR1A := 0, TCCR1B := _BV WGM13 }
      (by show _BV WGM13 < 256; decide) (by show _BV WGM13 &&& 16 = 16; decide)
  exact (runState8_calls F_CPU calls _ h0).1

/-! ## Critical sections -/

/-- After `cli()` the global interrupt flag reads as clear. -/
theorem cli_clears_I (t : TimerOne) : (TimerOne.cli t).SREG &&& _BV SREG_I = 0 := by
  have e : _BV SREG_I = 128 := by decide
  have h : (TimerOne.cli t).SREG = clearBits t.SREG (_BV SREG_I) := rfl
  rw [h, e, clearBits_mod t.SREG 128]
  exact (clear_bits_byte (t.SREG % 256) (Nat.mod_lt _ (by norm_num))).2.2.2

theorem execAll_append (a b : List Stmt) (t : TimerOne) :
    execAll (a ++ b) t = execAll b (execAll a t) := by
  unfold execAll
  rw [List.foldl_append]

theorem Guarded_append (a b : List Stmt) (t : TimerOne) :
    Guarded (a ++ b) t ↔ Guarded a t ∧ Guarded b (execAll a t) := by
  induction a generalizing t with
  | nil => simp [Guarded, execAll]
  | cons s rest ih =>
    show (_ ∧ Guarded (rest ++ b) (s.exec t))
      ↔ (_ ∧ Guarded rest (s.exec t)) ∧ Guarded b (execAll rest (s.exec t))
    rw [ih]
    exact and_assoc.symm

theorem setPeriodStmts_exec (F_CPU : Nat) (microseconds : Int) (t : TimerOne) :
    execAll (setPeriodStmts F_CPU microseconds) t = TimerOne.setPeriod F_CPU microseconds t :=
  rfl

theorem setPeriodStmts_guarded (F_CPU : Nat) (microseconds : Int) (t : TimerOne) :
    Guarded (setPeriodStmts F_CPU microseconds) t := by
  simp only [setPeriodStmts, Guarded, Stmt.exec]
  repeat' apply And.intro
  all_goals first | rfl | exact cli_clears_I _ | trivial

theorem setPwmDutyStmts_exec (pin duty : Int) (t : TimerOne) :
    execAll (setPwmDutyStmts pin duty t.pwmPeriod) t = TimerOne.setPwmDuty pin duty t := by
  unfold setPwmDutyStmts TimerOne.setPwmDuty
  split_ifs <;> rfl

theorem setPwmDutyStmts_guarded (pin duty : Int) (p : Nat) (t : TimerOne) :
    Guarded (setPwmDutyStmts pin duty p) t := by
  unfold setPwmDutyStmts
  split_ifs <;>
    simp only [List.cons_append, List.nil_append, List.append_nil, Guarded, Stmt.exec] <;>
    repeat' apply And.intro
  all_goals first | rfl | exact cli_clears_I _ | trivial

theorem startStmts_exec (t : TimerOne) : execAll startStmts t = TimerOne.startWrites t := rfl

theorem startStmts_guarded (t : TimerOne) : Guarded startStmts t := by
  simp only [startStmts, Guarded, Stmt.exec]
  repeat' apply And.intro
  all_goals first | rfl | exact cli_clears_I _ | trivial

theorem pwmStmts_exec (F_CPU : Nat) (pin duty microseconds : Int) (t : TimerOne) :
    execAll (pwmStmts F_CPU pin duty microseconds t) t
      = TimerOne.pwm F_CPU pin duty microseconds t := by
  simp only [pwmStmts, execAll_append, setPwmDutyStmts_exec]
  unfold TimerOne.pwm
  split_ifs <;> rfl

theorem pwmStmts_guarded (F_CPU : Nat) (pin duty microseconds : Int) (t : TimerOne) :
    Guarded (pwmStmts F_CPU pin duty microseconds t) t := by
  simp only [pwmStmts, Guarded_append]
  refine ⟨⟨⟨?_, ?_⟩, setPwmDutyStmts_guarded _ _ _ _⟩, ?_⟩
  · split_ifs
    · exact setPeriodStmts_guarded _ _ _
    · trivial
  · split_ifs <;> simp only [Guarded, Stmt.exec] <;> repeat' apply And.intro
    all_goals first | rfl | trivial
  · simp only [Guarded, Stmt.exec]
    repeat' apply And.intro
    all_goals first | rfl | trivial

/-- A store to a 16-bit register with the interrupt flag set is not guarded. -/
theorem unguarded_store_not_Guarded :
    ¬ Guarded [ .store16 .ICR1 (fun t => t.pwmPeriod) ] { TimerOne.powerOn with SREG := 128 } := by
  simp only [Guarded, and_true]
  decide

theorem setPwmDuty_SREG (pin duty : Int) (t : TimerOne) :
    (TimerOne.setPwmDuty pin duty t).SREG = t.SREG := by
  unfold TimerOne.setPwmDuty
  split_ifs <;> rfl

theorem pwm_SREG (F_CPU : Nat) (pin duty microseconds : Int) (t : TimerOne) :
    (TimerOne.pwm F_CPU pin duty microseconds t).SREG = t.SREG := by
  simp only [TimerOne.pwm, TimerOne.resume, TimerOne.setPwmDuty]
  split_ifs <;> rfl

theorem counterRuns_SREG (hw : Nat) (t : TimerOne) :
    (TimerOne.counterRuns hw t).SREG = t.SREG := by
  unfold TimerOne.counterRuns
  split_ifs <;> rfl

/-- One turn of the wait loop of `start()` is the counter moving, then the guarded
read. -/
theorem startWait_succ (hw : Nat → Nat) (fuel : Nat) (t : TimerOne) :
    TimerOne.startWait hw (fuel + 1) t
      = if (TimerOne.sampleTCNT1 (TimerOne.counterRuns (hw fuel) t)).2 = 0
        then TimerOne.startWait hw fuel
          (TimerOne.sampleTCNT1 (TimerOne.counterRuns (hw fuel) t)).1
        else some (TimerOne.sampleTCNT1 (TimerOne.counterRuns (hw fuel) t)).1 := rfl

/-- One turn of the wait loop of `read()` is the counter moving, then the guarded
read. -/
theorem readWait_succ (hw : Nat → Nat) (tmp fuel : Nat) (t : TimerOne) :
    TimerOne.readWait hw tmp (fuel + 1) t
      = if (TimerOne.sampleTCNT1 (TimerOne.counterRuns (hw fuel) t)).2 = tmp
        then TimerOne.readWait hw tmp fuel
          (TimerOne.sampleTCNT1 (TimerOne.counterRuns (hw fuel) t)).1
        else some ((TimerOne.sampleTCNT1 (TimerOne.counterRuns (hw fuel) t)).1,
          (TimerOne.sampleTCNT1 (TimerOne.counterRuns (hw fuel) t)).2) := rfl

theorem startWait_SREG (hw : Nat → Nat) (fuel : Nat) (t t' : TimerOne)
    (h : TimerOne.startWait hw fuel t = some t') : t'.SREG = t.SREG := by
  induction fuel generalizing t with
  | zero => simp [TimerOne.startWait] at h
  | succ n ih =>
    rw [startWait_succ] at h
    split_ifs at h
    · rw [ih _ h]
      exact counterRuns_SREG _ _
    · injection h with h
      rw [← h]
      exact counterRuns_SREG _ _

theorem readWait_SREG (hw : Nat → Nat) (tmp fuel : Nat) (t : TimerOne) (r : TimerOne × Nat)
    (h : TimerOne.readWait hw tmp fuel t = some r) : r.1.SREG = t.SREG := by
  induction fuel generalizing t with
  | zero => simp [TimerOne.readWait] at h
  | succ n ih =>
    rw [readWait_succ] at h
    split_ifs at h
    · rw [ih _ h]
      exact counterRuns_SREG _ _
    · injection h with h
      rw [← h]
      exact counterRuns_SREG _ _

theorem start_SREG (hw : Nat → Nat) (fuel : Nat) (t t' : TimerOne)
    (h : TimerOne.start hw fuel t = some t') : t'.SREG = t.SREG :=
  startWait_SREG hw fuel (TimerOne.startWrites t) t' h

/-- The function `read()` is its first guarded read, its wait loop, and the
conversion of the two samples. -/
theorem read_eq (F_CPU : Nat) (hw : Nat → Nat) (fuel : Nat) (t : TimerOne) :
    TimerOne.read F_CPU hw fuel t
      = (TimerOne.readWait hw t.TCNT1 fuel (TimerOne.sampleTCNT1 t).1).map
          (fun r => (r.1, readMicros F_CPU (readTicks r.1.ICR1 t.TCNT1 r.2)
            (readScale t.clockSelectBits))) := by
  have h : ∀ o : Option (TimerOne × Nat),
      (match o with
        | none => none
        | some (t', tcnt1) =>
          some (t', readMicros F_CPU (readTicks t'.ICR1 t.TCNT1 tcnt1)
            (readScale t.clockSelectBits)))
      = o.map (fun r => (r.1, readMicros F_CPU (readTicks r.1.ICR1 t.TCNT1 r.2)
            (readScale t.clockSelectBits))) := by
    intro o
    cases o with
    | none => rfl
    | some r => rfl
  exact h _

theorem read_SREG (F_CPU : Nat) (hw : Nat → Nat) (fuel : Nat) (t : TimerOne)
    (r : TimerOne × Nat) (h : TimerOne.read F_CPU hw fuel t = some r) : r.1.SREG = t.SREG := by
  rw [read_eq] at h
  cases hr : TimerOne.readWait hw t.TCNT1 fuel (TimerOne.sampleTCNT1 t).1 with
  | none => rw [hr] at h; simp at h
  | some q =>
    rw [hr] at h
    simp only [Option.map_some', Option.some.injEq] at h
    rw [← h]
    exact readWait_SREG hw t.TCNT1 fuel (TimerOne.sampleTCNT1 t).1 q hr

/-- C18: for every entry value of `SREG`, `setPeriod`, `setPwmDuty`, `pwm`, the
register writes of `start()` and the guarded counter read of `start()` and `read()`
end with `SREG` equal to its entry value, and so do `start()` and `read()` whenever
they return.  Written as statement lists in source order (which execute to the
same states as the member functions), `setPeriod`, `setPwmDuty`, `pwm` and the
writes of `start()` store to `ICR1`, `OCR1A`, `OCR1B` and `TCNT1` only with the
global interrupt flag clear, and none of their other statements changes one of
these registers. -/
theorem critical_sections_restore_SREG (F_CPU : Nat) (pin duty microseconds : Int)
    (t : TimerOne) :
    ((TimerOne.setPeriod F_CPU microseconds t).SREG = t.SREG ∧
      (TimerOne.setPwmDuty pin duty t).SREG = t.SREG ∧
      (TimerOne.pwm F_CPU pin duty microseconds t).SREG = t.SREG ∧
      (TimerOne.startWrites t).SREG = t.SREG ∧
      (TimerOne.sampleTCNT1 t).1.SREG = t.SREG) ∧
    ((∀ hw fuel t', TimerOne.start hw fuel t = some t' → t'.SREG = t.SREG) ∧
      (∀ hw fuel r, TimerOne.read F_CPU hw fuel t = some r → r.1.SREG = t.SREG)) ∧
    (execAll (setPeriodStmts F_CPU microseconds) t = TimerOne.setPeriod F_CPU microseconds t ∧
      Guarded (setPeriodStmts F_CPU microseconds) t) ∧
    (execAll (setPwmDutyStmts pin duty t.pwmPeriod) t = TimerOne.setPwmDuty pin duty t ∧
      Guarded (setPwmDutyStmts pin duty t.pwmPeriod) t) ∧
    (execAll (pwmStmts F_CPU pin duty microseconds t) t
        = TimerOne.pwm F_CPU pin duty microseconds t ∧
      Guarded (pwmStmts F_CPU pin duty microseconds t) t) ∧
    (execAll startStmts t = TimerOne.startWrites t ∧ Guarded startStmts t) :=
  ⟨⟨rfl, setPwmDuty_SREG pin duty t, pwm_SREG F_CPU pin duty microseconds t, rfl, rfl⟩,
    ⟨fun hw fuel t' h => start_SREG hw fuel t t' h,
      fun hw fuel r h => read_SREG F_CPU hw fuel t r h⟩,
    ⟨setPeriodStmts_exec F_CPU microseconds t, setPeriodStmts_guarded F_CPU microseconds t⟩,
    ⟨setPwmDutyStmts_exec pin duty t, setPwmDutyStmts_guarded pin duty t.pwmPeriod t⟩,
    ⟨pwmStmts_exec F_CPU pin duty microseconds t, pwmStmts_guarded F_CPU pin duty microseconds t⟩,
    ⟨startStmts_exec t, startStmts_guarded t⟩⟩
